import Mathlib

/-!
Verification of the attachment-resolution and concurrent-rendering pipeline of
`list-zotero-collection.py` and `calibre/list-calibre-collection.py`.

The Python scripts are embedded shallowly: pure string manipulation is
translated directly; the I/O collaborators (the Zotero client, the Google
Drive API, the HTML-to-PDF converter) are parameters carrying the outcome of
each call (`Except` models a call that may raise); the nondeterministic
completion order of the thread-pool tasks is an explicit parameter (a
permutation of the submitted `(index, item)` pairs); writes to files and to
standard output are modeled as an explicit emission trace.
-/

/-- The comparison Python's stable `list.sort(key=lambda x: x[0])` uses on the
collected `(index, fragment)` pairs: ordered by the stored index. -/
def keyLE {α : Type} (a b : Nat × α) : Prop := a.1 ≤ b.1

/-- The corresponding strict comparison, used to show the sorted order of
distinctly-indexed pairs is unique. -/
def keyLT {α : Type} (a b : Nat × α) : Prop := a.1 < b.1

instance {α : Type} : DecidableRel (@keyLE α) := fun a b => Nat.decLe a.1 b.1

instance {α : Type} : IsTotal (Nat × α) keyLE := ⟨fun a b => Nat.le_total a.1 b.1⟩

instance {α : Type} : IsTrans (Nat × α) keyLE := ⟨fun _ _ _ => Nat.le_trans⟩

instance {α : Type} : IsAntisymm (Nat × α) keyLT :=
  ⟨fun _ _ h1 h2 => absurd h1 (Nat.lt_asymm h2)⟩

/-- `formatted_items.sort(key=lambda x: x[0])`: a sort of the collected pairs
by stored index (the indices are distinct, so any sorting algorithm gives the
same result as Python's stable sort). -/
def sortByIndex {α : Type} (l : List (Nat × α)) : List (Nat × α) :=
  List.insertionSort keyLE l

namespace Zotero

/-- One entry of `item['data']['creators']`, with the fields the script reads;
`none` models an absent key. -/
structure Creator where
  lastName : Option String
  firstName : Option String
  name : Option String
deriving DecidableEq

/-- The `data` dictionary of a Zotero item, restricted to the keys the script
reads.  `none` models an absent key; the script only ever tests key presence
and truthiness of these string fields, so a present-but-`None` Python value is
also modeled by `none`. -/
structure ItemData where
  itemType : Option String
  title : Option String
  creators : Option (List Creator)
  date : Option String
  publisher : Option String
  place : Option String
  ISBN : Option String
  DOI : Option String
  publicationTitle : Option String
  volume : Option String
  issue : Option String
  pages : Option String
  url : Option String
  extra : Option String
  relations : Option String
deriving DecidableEq

/-- A Zotero item: the top-level `key` and the `data` dictionary.  A missing
key is `none`; accessing `item['data']` when `data = none` raises `KeyError`
in Python and is modeled by an `Except.error`. -/
structure Item where
  key : Option String
  data : Option ItemData
deriving DecidableEq

/-- A child object returned by `zot.children(item['key'])`, flattened to the
fields `get_attachment_paths` reads (`key` is top-level, the rest live in the
child's `data` dictionary). -/
structure Child where
  key : Option String
  itemType : Option String
  contentType : Option String
  filename : Option String
deriving DecidableEq

/-- Metadata of one Google Drive file as returned by `files().list` with
`fields=...files(id, name, webViewLink)`; the link field may be absent. -/
structure DriveFile where
  id : String
  name : String
  webViewLink : Option String
deriving DecidableEq

/-- The responses the Drive API gives during one run of
`search_file_in_drive`: the successive pages of the main query (a
`nextPageToken` accompanies every page except the last), the files matching
the query that are shared with the caller (the shared query returns a prefix
of them, cut to its `pageSize`), and whether the `folder_name` lookup
returned a folder. -/
structure DriveSvc where
  pages : List (List DriveFile)
  sharedFiles : List DriveFile
  folderFound : Bool
deriving DecidableEq

/-- The merge loop of `search_file_in_drive` (source lines 197-203): append
each shared file whose id is not already present, extending the seen-id set
as files are appended. -/
def mergeShared (results shared : List DriveFile) : List DriveFile :=
  shared.foldl
    (fun acc f => if acc.any (fun g => g.id == f.id) then acc else acc ++ [f])
    results

/-- The conditional shared-with-me query inside the pagination loop (source
lines 186-203): issued only when `include_shared` is set, fewer than
`max_results` results have been collected so far, and the search is not
folder-scoped.  The second component is instrumentation: the result count at
each issuance of the query. -/
def sharedPass (maxr : Nat) (includeShared folderScoped : Bool)
    (shared : List DriveFile) (results : List DriveFile) :
    List DriveFile × List Nat :=
  if includeShared = true ∧ results.length < maxr ∧ folderScoped = false then
    (mergeShared results (shared.take (maxr - results.length)), [results.length])
  else (results, [])

/-- The pagination loop of `search_file_in_drive` (source lines 174-208): each
iteration consumes one page of the main query, runs the conditional shared
query, and continues while a next-page token remains and fewer than
`max_results` results are collected. -/
def searchGo (maxr : Nat) (includeShared folderScoped : Bool)
    (shared : List DriveFile) :
    List (List DriveFile) → List DriveFile → List DriveFile × List Nat
  | [], results =>
    sharedPass maxr includeShared folderScoped shared results
  | page :: rest, results =>
    let p := sharedPass maxr includeShared folderScoped shared (results ++ page)
    match rest with
    | [] => p
    | r :: rs =>
      if p.1.length < maxr then
        let q := searchGo maxr includeShared folderScoped shared (r :: rs) p.1
        (q.1, p.2 ++ q.2)
      else p

/-- `search_file_in_drive` (source lines 139-210): the search is folder-scoped
when a `folder_name` was given and its lookup found a folder; the final result
list is cut to `max_results`.  The second component is the instrumented log of
shared-query issuances. -/
def search_file_in_drive (svc : DriveSvc) (max_results : Nat)
    (folderNameGiven : Bool) (include_shared : Bool) :
    List DriveFile × List Nat :=
  let folderScoped := folderNameGiven && svc.folderFound
  let r := searchGo max_results include_shared folderScoped svc.sharedFiles svc.pages []
  (r.1.take max_results, r.2)

/-- The union type `get_drive_url_by_filename` returns under Python's `None`:
a single URL (`Sum.inl`) or a list of URLs (`Sum.inr`). -/
abbrev DriveUrls := String ⊕ List String

/-- `get_drive_url_by_filename` (source lines 212-265).  `driveOutcome` is the
outcome of building the client and executing the search: `.error e` models an
exception raised at any step (caught by the function's `try`, printing to
stderr), `.ok svc` carries the Drive responses.  The second component lists
the messages printed to stderr. -/
def get_drive_url_by_filename (hasCreds : Bool)
    (driveOutcome : Except String DriveSvc) (return_all : Bool)
    (folderNameGiven : Bool) : Option DriveUrls × List String :=
  if hasCreds = false then (none, [])
  else
    match driveOutcome with
    | .error e => (none, ["Error accessing Google Drive: " ++ e])
    | .ok svc =>
      let results :=
        (search_file_in_drive svc (if return_all then 10 else 1) folderNameGiven true).1
      match results with
      | [] => (none, [])
      | f :: _ =>
        if return_all then
          (some (Sum.inr (results.filterMap (fun r => r.webViewLink))), [])
        else
          (Option.map Sum.inl f.webViewLink, [])

/-- The content-type allow-list of `get_attachment_paths` (source lines
349-364). -/
def supportedContentTypes : List String :=
  ["application/pdf",
   "image/vnd.djvu",
   "video/mp4",
   "application/vnd.ms-powerpoint",
   "application/vnd.openxmlformats-officedocument.presentationml.presentation",
   "application/epub+zip",
   "application/vnd.amazon.ebook",
   "application/x-mobi8-ebook",
   "application/x-mobipocket-ebook",
   "application/vnd.comicbook+zip",
   "application/x-cbr",
   "application/x-fictionbook+xml",
   "text/plain"]

/-- One resolved attachment: the conventional local storage path and the
optional Google Drive link. -/
structure AttachmentInfo where
  local_path : String
  drive_url : Option String
deriving DecidableEq

/-- The I/O collaborators of the per-item pipeline: the outcome of
`zot.children key` per item key, whether Google credentials were provided,
and the Drive responses per searched filename (`.error` models a resolution
step that raises). -/
structure ZotEnv where
  children : String → Except String (List Child)
  hasCreds : Bool
  drive : String → Except String DriveSvc

/-- The per-attachment Drive lookup of `get_attachment_paths` (source lines
374-393): `get_drive_url_by_filename(google_creds, filename,
exact_match=True, folder_name=None)` with `return_all` left `False`,
flattened to the optional URL; Python's truthiness test `if drive_url:` keeps
an empty string out.  The `Sum.inr` case never arises with
`return_all=False`. -/
def driveUrlFor (env : ZotEnv) (filename : String) : Option String :=
  if env.hasCreds = false then none
  else
    match (get_drive_url_by_filename env.hasCreds (env.drive filename) false false).1 with
    | some (Sum.inl l) => if l = "" then none else some l
    | _ => none

/-- `get_attachment_paths` (source lines 320-397): a falsy `item` yields `[]`;
a failing children lookup (or the `item['key']` access raising) is caught and
yields `[]`; each supported attachment contributes `storage/<id>/<filename>`
plus the optional Drive link.  The second component threads the item through,
recording that the function writes none of its fields. -/
def get_attachment_paths (env : ZotEnv) (item : Option Item) :
    List AttachmentInfo × Option Item :=
  match item with
  | none => ([], none)
  | some it =>
    let infos :=
      match it.key with
      | none => []
      | some k =>
        match env.children k with
        | .error _ => []
        | .ok atts =>
          atts.filterMap (fun a =>
            match a.itemType, a.contentType with
            | some t, some ct =>
              if t = "attachment" ∧ ct ∈ supportedContentTypes then
                match a.key, a.filename with
                | some aid, some fn =>
                  some { local_path := "storage/" ++ aid ++ "/" ++ fn,
                         drive_url := driveUrlFor env fn }
                | _, _ => none
              else none
            | _, _ => none)
    (infos, some it)

/-- Whitespace as Python's `str.strip` removes it. -/
def isPySpace (c : Char) : Bool :=
  c = ' ' ∨ c = '\t' ∨ c = '\n' ∨ c = '\x0d' ∨ c = '\x0c' ∨ c = '\x0b'

/-- Python `str.strip()`: drop leading and trailing whitespace. -/
def pyStrip (s : String) : String :=
  String.mk (((s.toList.dropWhile isPySpace).reverse.dropWhile isPySpace).reverse)

/-- The character-level worker of Python `str.split('\n')`. -/
def splitNlChars : List Char → List (List Char)
  | [] => [[]]
  | c :: cs =>
    let r := splitNlChars cs
    if c = '\n' then [] :: r
    else
      match r with
      | [] => [[c]]
      | h :: t => (c :: h) :: t

/-- Python `s.split('\n')` (note: `"".split('\n') == ['']`). -/
def pySplitNl (s : String) : List String :=
  (splitNlChars s.toList).map (fun l => String.mk l)

/-- The character-level worker of Python `str.replace` (all occurrences,
left to right); the fuel argument makes the recursion structural and is
instantiated with the string length, which suffices for a non-empty
pattern. -/
def replaceChars (pat rep : List Char) : Nat → List Char → List Char
  | _, [] => []
  | 0, s => s
  | fuel + 1, c :: cs =>
    if pat.isPrefixOf (c :: cs) then
      rep ++ replaceChars pat rep fuel ((c :: cs).drop pat.length)
    else c :: replaceChars pat rep fuel cs

/-- Python `s.replace(pat, rep)` for a non-empty pattern. -/
def pyReplace (s pat rep : String) : String :=
  String.mk (replaceChars pat.toList rep.toList s.toList.length s.toList)

/-- Python `s.startswith(pat)`. -/
def pyStartsWith (s pat : String) : Bool :=
  pat.toList.isPrefixOf s.toList

/-- Python `pat in s` (substring containment). -/
def strContains (s pat : String) : Bool :=
  (List.range (s.toList.length + 1)).any (fun i => pat.toList.isPrefixOf (s.toList.drop i))

/-- Python's `html.escape` with its default `quote=True` (the replacement
order is that of the standard library implementation: `&` first). -/
def htmlEscape (s : String) : String :=
  pyReplace (pyReplace (pyReplace (pyReplace (pyReplace s "&" "&amp;")
    "<" "&lt;") ">" "&gt;") "\"" "&quot;") "'" "&#x27;"

/-- The pattern `if label in data and data[label]: output.append(prefix +
data[label])` used for every optional text field: the field must be present
and truthy (non-empty). -/
def fieldLine (pre : String) (o : Option String) : List String :=
  match o with
  | some v => if v = "" then [] else [pre ++ v]
  | none => []

/-- The creator loop of `format_item_text` (source lines 408-413): last and
first name when both are present, otherwise the single `name` field when
present. -/
def authorNames (creators : List Creator) : List String :=
  creators.filterMap (fun c =>
    match c.lastName, c.firstName with
    | some ln, some fn => some (ln ++ ", " ++ fn)
    | _, _ => c.name)

/-- The authors block of `format_item_text` (source lines 407-415). -/
def authorsLinesText (d : ItemData) : List String :=
  match d.creators with
  | some cs =>
    if cs.isEmpty then []
    else
      let authors := authorNames cs
      if authors.isEmpty then []
      else ["Authors: " ++ String.intercalate "; " authors]
  | none => []

/-- The manuscript arXiv URL line of `format_item_text` (source lines
445-446). -/
def manuscriptUrlText (d : ItemData) : List String :=
  match d.url with
  | some u =>
    if u = "" then []
    else if strContains u "arxiv.org" then ["arXiv URL: " ++ u] else []
  | none => []

/-- The arXiv-id scan over `extra` in `format_item_text` (source lines
447-456): every line whose stripped form starts with `arXiv:` contributes an
id line, plus a constructed URL when the item's `url` does not already point
at arxiv.org. -/
def arxivLinesText (d : ItemData) : List String :=
  match d.extra with
  | some extra =>
    if extra = "" then []
    else if strContains extra "arXiv:" then
      (pySplitNl extra).flatMap (fun line =>
        if pyStartsWith (pyStrip line) "arXiv:" then
          let arxivId := pyStrip (pyReplace (pyStrip line) "arXiv:" "")
          ("arXiv ID: " ++ arxivId) ::
            (match d.url with
             | some u =>
               if strContains u "arxiv.org" then []
               else ["arXiv URL: https://arxiv.org/abs/" ++ arxivId]
             | none => ["arXiv URL: https://arxiv.org/abs/" ++ arxivId])
        else [])
    else []
  | none => []

/-- The attachment lines of `format_item_text` (source lines 462-473). -/
def attachmentLinesText (attachments : List AttachmentInfo) : List String :=
  if attachments.isEmpty then []
  else
    "Attachments:" ::
      attachments.map (fun a =>
        match a.drive_url with
        | some u => "  - " ++ a.local_path ++ " (Drive: " ++ u ++ ")"
        | none => "  - " ++ a.local_path)

/-- `format_item_text` (source lines 399-476), with the item threaded through
to the result: the function reads the record and never writes a field.  It
raises (`.error`) exactly where Python would: on `item['data']` when the
`data` key is missing. -/
def format_item_text (env : ZotEnv) (item : Item) : Except String String × Item :=
  match item.data with
  | none => (.error "KeyError: 'data'", item)
  | some d =>
    let item_type := d.itemType
    let base :=
      ["Title: " ++ d.title.getD "Unknown",
       "Type: " ++ d.itemType.getD "Unknown"]
      ++ authorsLinesText d
      ++ fieldLine "Date: " d.date
    let typed :=
      if item_type = some "book" then
        fieldLine "Publisher: " d.publisher ++ fieldLine "Place: " d.place
          ++ fieldLine "ISBN: " d.ISBN ++ fieldLine "DOI: " d.DOI
      else if item_type = some "journalArticle" then
        fieldLine "Journal: " d.publicationTitle ++ fieldLine "Volume: " d.volume
          ++ fieldLine "Issue: " d.issue ++ fieldLine "Pages: " d.pages
          ++ fieldLine "DOI: " d.DOI
      else if item_type = some "manuscript" then
        manuscriptUrlText d ++ arxivLinesText d
      else []
    let doiTail :=
      if item_type ≠ some "book" ∧ item_type ≠ some "journalArticle" then
        fieldLine "DOI: " d.DOI
      else []
    let attachments := (get_attachment_paths env (some item)).1
    (.ok (String.intercalate "\n"
      (base ++ typed ++ doiTail ++ attachmentLinesText attachments)), item)

/-- The creator loop of `format_item_html` (source lines 490-495): each part
is escaped individually (and the joined result is escaped a second time by
the caller, as in the source). -/
def authorNamesHtml (creators : List Creator) : List String :=
  creators.filterMap (fun c =>
    match c.lastName, c.firstName with
    | some ln, some fn => some (htmlEscape ln ++ ", " ++ htmlEscape fn)
    | _, _ => c.name.map htmlEscape)

/-- The authors block of `format_item_html` (source lines 489-497). -/
def authorsLinesHtml (d : ItemData) : List String :=
  match d.creators with
  | some cs =>
    if cs.isEmpty then []
    else
      let authors := authorNamesHtml cs
      if authors.isEmpty then []
      else ["<p><strong>Authors:</strong> "
              ++ htmlEscape (String.intercalate "; " authors) ++ "</p>"]
  | none => []

/-- The `<p><strong>Label:</strong> value</p>` pattern of
`format_item_html`, guarded by presence and truthiness. -/
def fieldLineHtml (label : String) (o : Option String) : List String :=
  match o with
  | some v =>
    if v = "" then []
    else ["<p><strong>" ++ label ++ ":</strong> " ++ htmlEscape v ++ "</p>"]
  | none => []

/-- The manuscript arXiv URL line of `format_item_html` (source lines
527-528). -/
def manuscriptUrlHtml (d : ItemData) : List String :=
  match d.url with
  | some u =>
    if u = "" then []
    else if strContains u "arxiv.org" then
      ["<p><strong>arXiv URL:</strong> <a href='" ++ htmlEscape u
        ++ "' target='_blank'>" ++ htmlEscape u ++ "</a></p>"]
    else []
  | none => []

/-- The arXiv-id scan over `extra` in `format_item_html` (source lines
529-539). -/
def arxivLinesHtml (d : ItemData) : List String :=
  match d.extra with
  | some extra =>
    if extra = "" then []
    else if strContains extra "arXiv:" then
      (pySplitNl extra).flatMap (fun line =>
        if pyStartsWith (pyStrip line) "arXiv:" then
          let arxivId := pyStrip (pyReplace (pyStrip line) "arXiv:" "")
          ("<p><strong>arXiv ID:</strong> " ++ htmlEscape arxivId ++ "</p>") ::
            (match d.url with
             | some u =>
               if strContains u "arxiv.org" then []
               else
                 let arxivUrl := "https://arxiv.org/abs/" ++ arxivId
                 ["<p><strong>arXiv URL:</strong> <a href='" ++ htmlEscape arxivUrl
                   ++ "' target='_blank'>" ++ htmlEscape arxivUrl ++ "</a></p>"]
             | none =>
               let arxivUrl := "https://arxiv.org/abs/" ++ arxivId
               ["<p><strong>arXiv URL:</strong> <a href='" ++ htmlEscape arxivUrl
                 ++ "' target='_blank'>" ++ htmlEscape arxivUrl ++ "</a></p>"])
        else [])
    else []
  | none => []

/-- The attachment block of `format_item_html` (source lines 545-558). -/
def attachmentLinesHtml (attachments : List AttachmentInfo) : List String :=
  if attachments.isEmpty then []
  else
    ["<p><strong>Attachments:</strong></p>", "<ul>"]
    ++ attachments.map (fun a =>
        match a.drive_url with
        | some u =>
          "<li>" ++ htmlEscape a.local_path ++ " - <a href='" ++ htmlEscape u
            ++ "' target='_blank'>View on Google Drive</a></li>"
        | none => "<li>" ++ htmlEscape a.local_path ++ "</li>")
    ++ ["</ul>"]

/-- `format_item_html` (source lines 478-561), with the item threaded through
to the result as for `format_item_text`. -/
def format_item_html (env : ZotEnv) (item : Item) : Except String String × Item :=
  match item.data with
  | none => (.error "KeyError: 'data'", item)
  | some d =>
    let item_type := d.itemType
    let base :=
      ["<div class='item " ++ htmlEscape (d.itemType.getD "") ++ "'><h2>"
         ++ htmlEscape (d.title.getD "Unknown") ++ "</h2>",
       "<p><strong>Type:</strong> " ++ htmlEscape (d.itemType.getD "Unknown") ++ "</p>"]
      ++ authorsLinesHtml d
      ++ fieldLineHtml "Date" d.date
    let typed :=
      if item_type = some "book" then
        fieldLineHtml "Publisher" d.publisher ++ fieldLineHtml "Place" d.place
          ++ fieldLineHtml "ISBN" d.ISBN ++ fieldLineHtml "DOI" d.DOI
      else if item_type = some "journalArticle" then
        fieldLineHtml "Journal" d.publicationTitle ++ fieldLineHtml "Volume" d.volume
          ++ fieldLineHtml "Issue" d.issue ++ fieldLineHtml "Pages" d.pages
          ++ fieldLineHtml "DOI" d.DOI
      else if item_type = some "manuscript" then
        manuscriptUrlHtml d ++ arxivLinesHtml d
      else []
    let doiTail :=
      if item_type ≠ some "book" ∧ item_type ≠ some "journalArticle" then
        fieldLineHtml "DOI" d.DOI
      else []
    let attachments := (get_attachment_paths env (some item)).1
    (.ok (String.intercalate "\n"
      (base ++ typed ++ doiTail ++ attachmentLinesHtml attachments ++ ["</div>"])), item)

/-- The filtering comprehension of `get_items` (source line 310): keeps items
whose type is neither `note` nor `attachment`; accessing `item['data']` on an
item without the key raises. -/
def filterRealItems : List Item → Except String (List Item)
  | [] => .ok []
  | it :: rest =>
    match it.data with
    | none => .error "KeyError: 'data'"
    | some d => do
      let tail ← filterRealItems rest
      if d.itemType ≠ some "note" ∧ d.itemType ≠ some "attachment" then
        pure (it :: tail)
      else pure tail

/-- The `del item['data']['relations']` of `get_items` (source lines
313-315). -/
def removeRelations (it : Item) : Item :=
  match it.data with
  | none => it
  | some d => { it with data := some { d with relations := none } }

/-- `get_items` (source lines 291-318): the fetch is modeled by the given raw
item list; notes and attachments are filtered out and the `relations` field
of each remaining item is deleted before the list is returned. -/
def get_items (raw : List Item) : Except String (List Item) := do
  let filtered ← filterRealItems raw
  pure (filtered.map removeRelations)

/-- Python `str(x)` applied to the optional collection name inside an
f-string (`None` prints as "None"). -/
def pyOptStr (o : Option String) : String := o.getD "None"

/-- The nested task body `format_single_item` of `generate_text_output`
(source lines 584-592).  `fmtRun idx item` is the outcome of the call
`format_item_text(item, zot, google_creds, verbose)` at the moment the task
for index `idx` runs (the result depends on the item and on the I/O the
formatter performs); an exception inside the task is caught at this boundary
and becomes an inline error fragment, so the task itself always returns a
string. -/
def format_single_item_text (fmtRun : Nat → Item → Except String String)
    (collection_name : Option String) (idx : Nat) (item : Item) : String :=
  match fmtRun idx item with
  | .ok content =>
    pyOptStr collection_name ++ " #" ++ toString (idx + 1) ++ "\n" ++ content ++ "\n---"
  | .error e =>
    "Error formatting item " ++ toString (idx + 1) ++ ": " ++ e ++ "\n---"

/-- The document title (source lines 569-572, identically lines 851-854):
the collection name is used when present and truthy. -/
def docTitle (current_date : String) (collection_name : Option String) : String :=
  match collection_name with
  | some c =>
    if c = "" then "Zotero Items - " ++ current_date
    else "Zotero Collection: " ++ c ++ " - " ++ current_date
  | none => "Zotero Items - " ++ current_date

/-- The text document header (source lines 574-578). -/
def textHeader (current_date : String) (collection_name : Option String) : List String :=
  let title := docTitle current_date collection_name
  [title, String.mk (List.replicate title.length '='), ""]

/-- The fragment collection and reordering of `generate_text_output` (source
lines 594-621): `completed` lists the submitted `(index, item)` pairs in the
order their futures complete (any permutation of `items.enum`); each result
is stored with its index and the collected pairs are sorted by stored index.
The outer `try` around `future.result()` is dead code in the model: the task
body is total. -/
def text_fragments (fmtRun : Nat → Item → Except String String)
    (collection_name : Option String) (completed : List (Nat × Item)) : List String :=
  let formatted_items :=
    completed.map (fun p => (p.1, format_single_item_text fmtRun collection_name p.1 p.2))
  (sortByIndex formatted_items).map (fun p => p.2)

/-- `generate_text_output` (source lines 563-627). -/
def generate_text_output (fmtRun : Nat → Item → Except String String)
    (current_date : String) (collection_name : Option String)
    (items : List Item) (completed : List (Nat × Item)) : String :=
  String.intercalate "\n"
    (textHeader current_date collection_name ++ text_fragments fmtRun collection_name completed)

/-- The module-level task body `format_single_item` used by
`generate_items_html` (source lines 691-700), with the same task-boundary
exception handling as the text variant. -/
def format_single_item (fmtRun : Nat → Item → Except String String)
    (collection_name : Option String) (idx : Nat) (item : Item) : String :=
  match fmtRun idx item with
  | .ok content =>
    "<div class='item-number'>" ++ pyOptStr collection_name ++ " #"
      ++ toString (idx + 1) ++ "</div>" ++ "\n" ++ content
  | .error e =>
    "<div class='item-error'>Error formatting item " ++ toString (idx + 1)
      ++ ": " ++ e ++ "</div>"

/-- `generate_items_html` (source lines 702-734): same collect-then-sort
shape as the text generator, returning the ordered fragment list. -/
def generate_items_html (fmtRun : Nat → Item → Except String String)
    (collection_name : Option String) (items : List Item)
    (completed : List (Nat × Item)) : List String :=
  let formatted_items :=
    completed.map (fun p => (p.1, format_single_item fmtRun collection_name p.1 p.2))
  (sortByIndex formatted_items).map (fun p => p.2)

/-- `generate_html_header` (source lines 629-679): static scaffold text,
verbatim from the source. -/
def generate_html_header (title : String) : List String :=
  ["<!DOCTYPE html>",
   "<html>",
   "<head>",
   ("<title>" ++ title ++ "</title>"),
   "<!-- KaTeX CSS -->",
   "<link rel='stylesheet' href='https://cdn.jsdelivr.net/npm/katex@0.16.8/dist/katex.min.css' integrity='sha384-GvrOXuhMATgEsSwCs4smul74iXGOixntILdUW9XmUC6+HX0sLNAK3q71HotJqlAn' crossorigin='anonymous'>",
   "<!-- KaTeX JS -->",
   "<script defer src='https://cdn.jsdelivr.net/npm/katex@0.16.8/dist/katex.min.js' integrity='sha384-cpW21h6RZv/phavutF+AuVYrr+dA8xD9zs6FwLpaCct6O9ctzYFfFr4dgmgccOTx' crossorigin='anonymous'></script>",
   "<!-- KaTeX auto-render extension -->",
   "<script defer src='https://cdn.jsdelivr.net/npm/katex@0.16.8/dist/contrib/auto-render.min.js' integrity='sha384-+VBxd3r6XgURycqtZ117nYw44OOcIax56Z4dCRWbxyPt0Koah1uHoK0o4+/RRE05' crossorigin='anonymous'></script>",
   "<script>",
   "document.addEventListener('DOMContentLoaded', function() \x7b",
   "  renderMathInElement(document.body, \x7b",
   "    delimiters: [",
   "      \x7bleft: '$$', right: '$$', display: true\x7d,",
   "      \x7bleft: '$', right: '$', display: false\x7d",
   "    ],",
   "    throwOnError: false",
   "  \x7d);",
   "\x7d);",
   "</script>",
   "<style>",
   "body \x7b font-family: Arial, sans-serif; margin: 40px; \x7d",
   ".item \x7b margin-bottom: 30px; border-bottom: 1px solid #ccc; padding-bottom: 20px; \x7d",
   ".item-number \x7b font-weight: bold; color: #7f8c8d; margin-bottom: 5px; \x7d",
   "h1 \x7b color: #2c3e50; \x7d",
   "h2 \x7b color: #3498db; \x7d",
   ".notice \x7b font-style: italic; background-color: #f8f9fa; padding: 10px; border-left: 3px solid #3498db; margin-bottom: 20px; \x7d",
   ".coffee-button \x7b position: absolute; top: 20px; right: 20px; \x7d",
   ".coffee-button img \x7b height: 40px; border: none; \x7d",
   ".search-container \x7b margin-bottom: 20px; padding: 15px; background-color: #f8f9fa; border-radius: 5px; \x7d",
   "#searchInput \x7b width: 300px; padding: 8px; font-size: 16px; border: 1px solid #ccc; border-radius: 4px; \x7d",
   "#searchBtn \x7b padding: 8px 15px; background-color: #3498db; color: white; border: none; border-radius: 4px; cursor: pointer; margin-left: 10px; \x7d",
   "#searchBtn:hover \x7b background-color: #2980b9; \x7d",
   "#searchCount \x7b margin-left: 15px; font-style: italic; \x7d",
   ".highlight \x7b background-color: yellow; font-weight: bold; \x7d",
   ".hidden \x7b display: none; \x7d",
   "</style>",
   "</head>",
   "<body>",
   "<div class='coffee-button'>",
   "<a href='https://www.buymeacoffee.com/hoanganhduc' target='_blank'>",
   "<img src='https://cdn.buymeacoffee.com/buttons/v2/default-yellow.png' alt='Buy Me A Coffee'>",
   "</a>",
   "</div>",
   ("<h1>" ++ title ++ "</h1>"),
   "<div class='notice'>This page is created from a Zotero collection of <a href='https://hoanganhduc.github.io/'>Duc A. Hoang</a> using the <a href='list-zotero-collection.py'>list-zotero-collection.py</a> script. Materials listed have been gathered from various sources. Access to these materials via Google Drive is restricted due to possible copyright issues.</div>"]

/-- `generate_search_container` (source lines 681-689). -/
def generate_search_container : List String :=
  ["<div class='search-container'>",
   "<input type='text' id='searchInput' placeholder='Search within this page...' />",
   "<button id='searchBtn'>Search</button>",
   "<span id='searchCount'></span>",
   "</div>"]

/-- `generate_search_script` (source lines 736-844): static scaffold text, verbatim from the source. -/
def generate_search_script : List String :=
  ["<script>",
   "document.addEventListener('DOMContentLoaded', function() \x7b",
   "  const searchInput = document.getElementById('searchInput');",
   "  const searchBtn = document.getElementById('searchBtn');",
   "  const searchCount = document.getElementById('searchCount');",
   "  const items = document.querySelectorAll('.item');",
   "",
   "  function performSearch() \x7b",
   "    const searchTerm = searchInput.value.toLowerCase().trim();",
   "    if (searchTerm === '') \x7b",
   "      // Show all items if search is empty",
   "      items.forEach(item => \x7b",
   "        item.classList.remove('hidden');",
   "        // Remove any existing highlights",
   "        const highlighted = item.querySelectorAll('.highlight');",
   "        highlighted.forEach(el => \x7b",
   "          const parent = el.parentNode;",
   "          parent.replaceChild(document.createTextNode(el.textContent), el);",
   "          parent.normalize();",
   "        \x7d);",
   "      \x7d);",
   "      searchCount.textContent = '';",
   "      return;",
   "    \x7d",
   "",
   "    let matchCount = 0;",
   "",
   "    // Process each item",
   "    items.forEach(item => \x7b",
   "      const text = item.textContent.toLowerCase();",
   "      const hasMatch = text.includes(searchTerm);",
   "      ",
   "      // Show/hide based on match",
   "      if (hasMatch) \x7b",
   "        item.classList.remove('hidden');",
   "        matchCount++;",
   "        ",
   "        // Highlight matches (only in text nodes)",
   "        highlightText(item, searchTerm);",
   "      \x7d else \x7b",
   "        item.classList.add('hidden');",
   "      \x7d",
   "    \x7d);",
   "",
   "    // Update count display",
   "    searchCount.textContent = `Found $\x7bmatchCount\x7d matching items`;",
   "  \x7d",
   "",
   "  function highlightText(element, searchTerm) \x7b",
   "    // Remove any existing highlights first",
   "    const highlighted = element.querySelectorAll('.highlight');",
   "    highlighted.forEach(el => \x7b",
   "      const parent = el.parentNode;",
   "      parent.replaceChild(document.createTextNode(el.textContent), el);",
   "      parent.normalize();",
   "    \x7d);",
   "",
   "    // Function to recursively process text nodes",
   "    function processNode(node) \x7b",
   "      // Only process text nodes",
   "      if (node.nodeType === 3) \x7b",
   "        const text = node.nodeValue.toLowerCase();",
   "        const index = text.indexOf(searchTerm.toLowerCase());",
   "        ",
   "        // If search term found in this text node",
   "        if (index >= 0) \x7b",
   "          const before = node.nodeValue.substring(0, index);",
   "          const match = node.nodeValue.substring(index, index + searchTerm.length);",
   "          const after = node.nodeValue.substring(index + searchTerm.length);",
   "          ",
   "          const beforeNode = document.createTextNode(before);",
   "          const matchNode = document.createElement('span');",
   "          matchNode.classList.add('highlight');",
   "          matchNode.textContent = match;",
   "          const afterNode = document.createTextNode(after);",
   "          ",
   "          const parent = node.parentNode;",
   "          parent.replaceChild(afterNode, node);",
   "          parent.insertBefore(matchNode, afterNode);",
   "          parent.insertBefore(beforeNode, matchNode);",
   "          ",
   "          // Process the 'after' part too for multiple occurrences",
   "          processNode(afterNode);",
   "        \x7d",
   "      \x7d else if (node.nodeType === 1 && node.childNodes && !/(script|style)/i.test(node.tagName)) \x7b",
   "        // Process children of element nodes",
   "        Array.from(node.childNodes).forEach(child => processNode(child));",
   "      \x7d",
   "    \x7d",
   "",
   "    // Start processing from the item element",
   "    processNode(element);",
   "  \x7d",
   "",
   "  // Event listeners",
   "  searchBtn.addEventListener('click', performSearch);",
   "  searchInput.addEventListener('keyup', function(event) \x7b",
   "    if (event.key === 'Enter') \x7b",
   "      performSearch();",
   "    \x7d",
   "  \x7d);",
   "\x7d);",
   "</script>",
   "</body>",
   "</html>"]


/-- `generate_html_output` (source lines 846-871). -/
def generate_html_output (fmtRun : Nat → Item → Except String String)
    (current_date : String) (collection_name : Option String)
    (items : List Item) (completed : List (Nat × Item)) : String :=
  String.intercalate "\n"
    (generate_html_header (docTitle current_date collection_name)
      ++ generate_search_container
      ++ generate_items_html fmtRun collection_name items completed
      ++ generate_search_script)


end Zotero

/-- The `--output-format` choice shared by both scripts. -/
inductive OutputFormat where
  | text
  | html
  | pdf
deriving DecidableEq

/-- Whether the run completed or was terminated by `sys.exit`. -/
inductive ProcOutcome where
  | ok
  | exited (code : Nat)
deriving DecidableEq

/-- One observable output action of the display stage: a plain `print` to
standard output, a `with open(path, 'w', encoding='utf-8') ... f.write`
block (the file is opened, truncated, written and closed on exit of the
block), or the HTML-to-PDF converter writing the PDF file at `path`.
Progress lines (`print_progress`) are observational and not recorded. -/
inductive Emission where
  | stdoutMsg (s : String)
  | fileWrite (path content : String)
  | pdfGen (path content : String)
deriving DecidableEq

namespace Zotero

/-- Source lines 874-883: the `try` bodies are plain assignments and never
raise, so the availability flag is constantly true and the generator name is
constantly `pdfkit`. -/
def PDF_GENERATOR_AVAILABLE : Bool := true

/-- The selected PDF generator name (source lines 874-883). -/
def PDF_GENERATOR_NAME : String := "pdfkit"

/-- `generate_pdf_output` (source lines 885-926): `conv` is the outcome of
the HTML-to-PDF conversion (`pdfkit.from_string`); on an exception the error
is reported through `print_progress` — which prints only when `verbose` is
set — and the process exits with status 1.  The second component is the list
of stderr messages (without their timestamp prefix). -/
def generate_pdf_output (conv : Except String Unit) (verbose : Bool) :
    ProcOutcome × List String :=
  if PDF_GENERATOR_AVAILABLE = false then
    (ProcOutcome.exited 1,
     ["Error: No PDF generation library available. Cannot generate PDF."])
  else
    match conv with
    | .ok _ => (ProcOutcome.ok, [])
    | .error e =>
      (ProcOutcome.exited 1,
       if verbose then
         ["Error generating PDF with " ++ PDF_GENERATOR_NAME ++ ": " ++ e]
       else [])

/-- The collaborators and nondeterminism of one `display_items` run: the
formatter-task outcomes and completion orders for the text and HTML
generators, the current date, the PDF-conversion outcome and the verbosity
flag. -/
structure RunEnv where
  fmtTextRun : Nat → Item → Except String String
  fmtHtmlRun : Nat → Item → Except String String
  textCompleted : List (Nat × Item)
  htmlCompleted : List (Nat × Item)
  current_date : String
  pdfConv : Except String Unit
  verbose : Bool

/-- `display_items` (source lines 990-1029): an empty item list prints
`No items found.` and returns before any generation; otherwise the document
for the chosen format is generated and routed to the named file when
`output_file` is given, to standard output otherwise — except for `pdf`,
which substitutes the default file name `zotero_items.pdf` when no
`output_file` is given and never prints the document to standard output. -/
def display_items (env : RunEnv) (items : List Item) (output_format : OutputFormat)
    (output_file : Option String) (collection_name : Option String) :
    List Emission × ProcOutcome :=
  match items with
  | [] => ([Emission.stdoutMsg "No items found."], ProcOutcome.ok)
  | _ :: _ =>
    match output_format with
    | OutputFormat.text =>
      let text_content :=
        generate_text_output env.fmtTextRun env.current_date collection_name items env.textCompleted
      match output_file with
      | some f =>
        ([Emission.fileWrite f text_content,
          Emission.stdoutMsg ("Text output saved to " ++ f)], ProcOutcome.ok)
      | none => ([Emission.stdoutMsg text_content], ProcOutcome.ok)
    | OutputFormat.html =>
      let html_content :=
        generate_html_output env.fmtHtmlRun env.current_date collection_name items env.htmlCompleted
      match output_file with
      | some f =>
        ([Emission.fileWrite f html_content,
          Emission.stdoutMsg ("HTML output saved to " ++ f)], ProcOutcome.ok)
      | none => ([Emission.stdoutMsg html_content], ProcOutcome.ok)
    | OutputFormat.pdf =>
      let html_content :=
        generate_html_output env.fmtHtmlRun env.current_date collection_name items env.htmlCompleted
      let f := output_file.getD "zotero_items.pdf"
      match generate_pdf_output env.pdfConv env.verbose with
      | (ProcOutcome.ok, _) =>
        ([Emission.pdfGen f html_content,
          Emission.stdoutMsg ("PDF output saved to " ++ f)], ProcOutcome.ok)
      | (ProcOutcome.exited c, _) => ([], ProcOutcome.exited c)

end Zotero

namespace Calibre

/-- ASCII lowering, as Python's `str.lower` acts on the ASCII strings this
script lowers (format tags and the anchor directory name). -/
def lowerChar (c : Char) : Char :=
  if 'A' ≤ c ∧ c ≤ 'Z' then Char.ofNat (c.toNat + 32) else c

/-- Python `str.lower` over a character list. -/
def lowerStr (s : List Char) : List Char := s.map lowerChar

/-- Python `str.find`: the first index at which `pat` occurs in `s`
(`none` for Python's -1). -/
def findSub (s pat : List Char) : Option Nat :=
  (List.range (s.length + 1)).find? (fun i => pat.isPrefixOf (s.drop i))

/-- Source lines 308-311: keep the path from the first case-insensitive
occurrence of "Calibre Library" on, when there is one (the index is found on
the lowered string and the slice is taken from the original). -/
def truncateAtCalibre (s : List Char) : List Char :=
  match findSub (lowerStr s) ("calibre library".toList) with
  | some idx => s.drop idx
  | none => s

/-- The filename built for one declared format (source lines 299-304): the
stored name itself when it contains a dot, otherwise the name with the
lowered format tag appended as extension. -/
def formatFilename (fmtName ext : List Char) : List Char :=
  if '.' ∈ fmtName then fmtName else fmtName ++ '.' :: ext

/-- Source lines 313-314: append the extension unless the lowered path
already ends in it. -/
def ensureExtension (path ext : List Char) : List Char :=
  if ('.' :: ext) <:+ lowerStr path then path else path ++ '.' :: ext

/-- The local-path derivation of `get_attachment_paths` for one declared
format (source lines 293-314).  `pathlib` resolution to an absolute POSIX
path string is modeled as the POSIX join of the (absolute, already
normalized) library path, the book folder and the filename. -/
def derive_local_path (library_path book_path fmtFormat fmtName : List Char) : List Char :=
  let ext := lowerStr fmtFormat
  let filename := formatFilename fmtName ext
  let local_path_str := library_path ++ '/' :: book_path ++ '/' :: filename
  ensureExtension (truncateAtCalibre local_path_str) ext

/-- One row of the `data` table: a declared format tag and the stored file
name (without extension, usually). -/
structure BookFormat where
  format : String
  name : String
deriving DecidableEq

/-- A book dictionary as `list_calibre_books` builds it (source lines
278-290), restricted to the fields the attachment locator and the renderer
read. -/
structure Book where
  id : Nat
  title : Option String
  authors : List String
  path : String
  pubdate : Option String
  isbn : Option String
  series : Option String
  publisher : Option String
  formats : List BookFormat
deriving DecidableEq

/-- Calibre's `get_attachment_paths` (source lines 293-335): one attachment
per declared format, with the derived local path and the optional Drive link
(the script's `get_drive_url_by_filename` is line-for-line the Zotero copy,
so the Zotero embedding of the per-filename lookup is reused; a resolution
error is caught and leaves the attachment without a link). -/
def get_attachment_paths (library_path : List Char) (book : Book)
    (hasCreds : Bool) (drive : String → Except String Zotero.DriveSvc) :
    List Zotero.AttachmentInfo :=
  book.formats.map (fun fmt =>
    let ext := lowerStr fmt.format.toList
    let filename := String.mk (formatFilename fmt.name.toList ext)
    { local_path :=
        String.mk (derive_local_path library_path book.path.toList
          fmt.format.toList fmt.name.toList),
      drive_url :=
        Zotero.driveUrlFor { children := fun _ => .ok [],
                             hasCreds := hasCreds, drive := drive } filename })

/-- The nested task body `format_single_book` of Calibre's
`generate_text_output` (source lines 400-408); `fmtRun idx book` is the
outcome of `format_book_text` when the task runs, and an exception is caught
at this boundary and becomes an inline error fragment. -/
def format_single_book_text (fmtRun : Nat → Book → Except String String)
    (idx : Nat) (book : Book) : String :=
  match fmtRun idx book with
  | .ok content => "Book #" ++ toString (idx + 1) ++ "\n" ++ content ++ "\n---"
  | .error e => "Error formatting book " ++ toString (idx + 1) ++ ": " ++ e ++ "\n---"

/-- The text document header of Calibre's `generate_text_output` (source
lines 393-399). -/
def textHeader (current_date : String) : List String :=
  let title := "Calibre Library - " ++ current_date
  [title, String.mk (List.replicate title.length '='), ""]

/-- The fragment collection and reordering of Calibre's
`generate_text_output` (source lines 409-428): collected `(index, fragment)`
pairs are sorted by stored index. -/
def text_fragments (fmtRun : Nat → Book → Except String String)
    (completed : List (Nat × Book)) : List String :=
  let formatted_books :=
    completed.map (fun p => (p.1, format_single_book_text fmtRun p.1 p.2))
  (sortByIndex formatted_books).map (fun p => p.2)

/-- Calibre's `generate_text_output` (source lines 390-431). -/
def generate_text_output (fmtRun : Nat → Book → Except String String)
    (current_date : String) (books : List Book)
    (completed : List (Nat × Book)) : String :=
  String.intercalate "\n" (textHeader current_date ++ text_fragments fmtRun completed)

/-- The module-level task body `format_single_book` used by
`generate_books_html` (source lines 478-486). -/
def format_single_book (fmtRun : Nat → Book → Except String String)
    (idx : Nat) (book : Book) : String :=
  match fmtRun idx book with
  | .ok content =>
    "<div class='item-number'>Book #" ++ toString (idx + 1) ++ "</div>" ++ "\n" ++ content
  | .error e =>
    "<div class='item-error'>Error formatting book " ++ toString (idx + 1)
      ++ ": " ++ e ++ "</div>"

/-- Calibre's `generate_books_html` (source lines 488-510). -/
def generate_books_html (fmtRun : Nat → Book → Except String String)
    (books : List Book) (completed : List (Nat × Book)) : List String :=
  let formatted_books :=
    completed.map (fun p => (p.1, format_single_book fmtRun p.1 p.2))
  (sortByIndex formatted_books).map (fun p => p.2)

/-- The default copyright notice of Calibre's `generate_html_header` (source
line 434); `now` is the formatted current timestamp. -/
def default_notice (now : String) : String :=
  "This document was automatically generated from a Calibre library. Items are listed for personal reference only. All references, articles, and other content remain the property of their respective copyright holders. This document is not for redistribution. Last updated on " ++ now ++ "."

/-- Calibre's `generate_html_header` (source lines 433-467): static scaffold
text, verbatim from the source. -/
def generate_html_header (title notice_text : String) : List String :=
  ["<!DOCTYPE html>",
   "<html>",
   "<head>",
   ("<title>" ++ title ++ "</title>"),
   "<style>",
   "body \x7b font-family: Arial, sans-serif; margin: 40px; \x7d",
   ".item \x7b margin-bottom: 30px; border-bottom: 1px solid #ccc; padding-bottom: 20px; \x7d",
   ".item-number \x7b font-weight: bold; color: #7f8c8d; margin-bottom: 5px; \x7d",
   "h1 \x7b color: #2c3e50; \x7d",
   "h2 \x7b color: #3498db; \x7d",
   ".notice \x7b font-style: italic; background-color: #f8f9fa; padding: 10px; border-left: 3px solid #3498db; margin-bottom: 20px; \x7d",
   ".coffee-button \x7b position: absolute; top: 20px; right: 20px; \x7d",
   ".coffee-button img \x7b height: 40px; border: none; \x7d",
   ".search-container \x7b margin-bottom: 20px; padding: 15px; background-color: #f8f9fa; border-radius: 5px; \x7d",
   "#searchInput \x7b width: 300px; padding: 8px; font-size: 16px; border: 1px solid #ccc; border-radius: 4px; \x7d",
   "#searchBtn \x7b padding: 8px 15px; background-color: #3498db; color: white; border: none; border-radius: 4px; cursor: pointer; margin-left: 10px; \x7d",
   "#searchBtn:hover \x7b background-color: #2980b9; \x7d",
   "#searchCount \x7b margin-left: 15px; font-style: italic; \x7d",
   ".highlight \x7b background-color: yellow; font-weight: bold; \x7d",
   ".hidden \x7b display: none; \x7d",
   "</style>",
   "</head>",
   "<body>",
   "<div class='coffee-button'>",
   "<a href='https://www.buymeacoffee.com/hoanganhduc' target='_blank'>",
   "<img src='https://cdn.buymeacoffee.com/buttons/v2/default-yellow.png' alt='Buy Me A Coffee'>",
   "</a>",
   "</div>",
   ("<h1>" ++ title ++ "</h1>"),
   ("<div class='notice'>" ++ notice_text ++ "</div>")]

/-- Calibre's `generate_search_container` (source lines 469-476). -/
def generate_search_container : List String :=
  ["<div class='search-container'>",
   "<input type='text' id='searchInput' placeholder='Search within this page...' />",
   "<button id='searchBtn'>Search</button>",
   "<span id='searchCount'></span>",
   "</div>"]

/-- Calibre's `generate_search_script` (source lines 512-592): static scaffold text, verbatim from the source. -/
def generate_search_script : List String :=
  ["<script>",
   "document.addEventListener('DOMContentLoaded', function() \x7b",
   "  const searchInput = document.getElementById('searchInput');",
   "  const searchBtn = document.getElementById('searchBtn');",
   "  const searchCount = document.getElementById('searchCount');",
   "  const items = document.querySelectorAll('.item');",
   "",
   "  function performSearch() \x7b",
   "    const searchTerm = searchInput.value.toLowerCase().trim();",
   "    if (searchTerm === '') \x7b",
   "      items.forEach(item => \x7b",
   "        item.classList.remove('hidden');",
   "        const highlighted = item.querySelectorAll('.highlight');",
   "        highlighted.forEach(el => \x7b",
   "          const parent = el.parentNode;",
   "          parent.replaceChild(document.createTextNode(el.textContent), el);",
   "          parent.normalize();",
   "        \x7d);",
   "      \x7d);",
   "      searchCount.textContent = '';",
   "      return;",
   "    \x7d",
   "    let matchCount = 0;",
   "    items.forEach(item => \x7b",
   "      const text = item.textContent.toLowerCase();",
   "      const hasMatch = text.includes(searchTerm);",
   "      if (hasMatch) \x7b",
   "        item.classList.remove('hidden');",
   "        matchCount++;",
   "        highlightText(item, searchTerm);",
   "      \x7d else \x7b",
   "        item.classList.add('hidden');",
   "      \x7d",
   "    \x7d);",
   "    searchCount.textContent = `Found $\x7bmatchCount\x7d matching items`;",
   "  \x7d",
   "  function highlightText(element, searchTerm) \x7b",
   "    const highlighted = element.querySelectorAll('.highlight');",
   "    highlighted.forEach(el => \x7b",
   "      const parent = el.parentNode;",
   "      parent.replaceChild(document.createTextNode(el.textContent), el);",
   "      parent.normalize();",
   "    \x7d);",
   "    function processNode(node) \x7b",
   "      if (node.nodeType === 3) \x7b",
   "        const text = node.nodeValue.toLowerCase();",
   "        const index = text.indexOf(searchTerm.toLowerCase());",
   "        if (index >= 0) \x7b",
   "          const before = node.nodeValue.substring(0, index);",
   "          const match = node.nodeValue.substring(index, index + searchTerm.length);",
   "          const after = node.nodeValue.substring(index + searchTerm.length);",
   "          const beforeNode = document.createTextNode(before);",
   "          const matchNode = document.createElement('span');",
   "          matchNode.classList.add('highlight');",
   "          matchNode.textContent = match;",
   "          const afterNode = document.createTextNode(after);",
   "          const parent = node.parentNode;",
   "          parent.replaceChild(afterNode, node);",
   "          parent.insertBefore(matchNode, afterNode);",
   "          parent.insertBefore(beforeNode, matchNode);",
   "          processNode(afterNode);",
   "        \x7d",
   "      \x7d else if (node.nodeType === 1 && node.childNodes && !/(script|style)/i.test(node.tagName)) \x7b",
   "        Array.from(node.childNodes).forEach(child => processNode(child));",
   "      \x7d",
   "    \x7d",
   "    processNode(element);",
   "  \x7d",
   "  searchBtn.addEventListener('click', performSearch);",
   "  searchInput.addEventListener('keyup', function(event) \x7b",
   "    if (event.key === 'Enter') \x7b",
   "      performSearch();",
   "    \x7d",
   "  \x7d);",
   "\x7d);",
   "</script>",
   "</body>",
   "</html>"]


/-- Calibre's `generate_html_output` (source lines 594-607). -/
def generate_html_output (fmtRun : Nat → Book → Except String String)
    (current_date now : String) (books : List Book)
    (completed : List (Nat × Book)) (notice : Option String) : String :=
  let title := "Calibre Library - " ++ current_date
  String.intercalate "\n"
    (generate_html_header title (notice.getD (default_notice now))
      ++ generate_search_container
      ++ generate_books_html fmtRun books completed
      ++ generate_search_script)

/-- Calibre's `generate_pdf_output` (source lines 609-627): `conv` is the
outcome of `pdfkit.from_string`; on an exception the error is reported
through `print_progress` — which prints only when `verbose` is set — and the
process exits with status 1.  Second component: stderr messages. -/
def generate_pdf_output (conv : Except String Unit) (verbose : Bool) :
    ProcOutcome × List String :=
  match conv with
  | .ok _ => (ProcOutcome.ok, [])
  | .error e =>
    (ProcOutcome.exited 1,
     if verbose then ["Error generating PDF with pdfkit: " ++ e] else [])

/-- The collaborators and nondeterminism of one `display_books` run. -/
structure RunEnv where
  fmtTextRun : Nat → Book → Except String String
  fmtHtmlRun : Nat → Book → Except String String
  textCompleted : List (Nat × Book)
  htmlCompleted : List (Nat × Book)
  current_date : String
  now : String
  pdfConv : Except String Unit
  verbose : Bool

/-- Calibre's `display_books` (source lines 629-664): an empty book list
prints `No books found.` and returns before any generation; otherwise the
document for the chosen format is routed exactly as in the Zotero
`display_items`, with default PDF file name `calibre_books.pdf`. -/
def display_books (env : RunEnv) (books : List Book) (output_format : OutputFormat)
    (output_file : Option String) (notice : Option String) :
    List Emission × ProcOutcome :=
  match books with
  | [] => ([Emission.stdoutMsg "No books found."], ProcOutcome.ok)
  | _ :: _ =>
    match output_format with
    | OutputFormat.text =>
      let text_content :=
        generate_text_output env.fmtTextRun env.current_date books env.textCompleted
      match output_file with
      | some f =>
        ([Emission.fileWrite f text_content,
          Emission.stdoutMsg ("Text output saved to " ++ f)], ProcOutcome.ok)
      | none => ([Emission.stdoutMsg text_content], ProcOutcome.ok)
    | OutputFormat.html =>
      let html_content :=
        generate_html_output env.fmtHtmlRun env.current_date env.now books env.htmlCompleted notice
      match output_file with
      | some f =>
        ([Emission.fileWrite f html_content,
          Emission.stdoutMsg ("HTML output saved to " ++ f)], ProcOutcome.ok)
      | none => ([Emission.stdoutMsg html_content], ProcOutcome.ok)
    | OutputFormat.pdf =>
      let html_content :=
        generate_html_output env.fmtHtmlRun env.current_date env.now books env.htmlCompleted notice
      let f := output_file.getD "calibre_books.pdf"
      match generate_pdf_output env.pdfConv env.verbose with
      | (ProcOutcome.ok, _) =>
        ([Emission.pdfGen f html_content,
          Emission.stdoutMsg ("PDF output saved to " ++ f)], ProcOutcome.ok)
      | (ProcOutcome.exited c, _) => ([], ProcOutcome.exited c)

end Calibre

section SortLemmas

/-- Sorting the collected `(index, fragment)` pairs by stored index recovers
the submission order: for any completion order (a permutation of
`items.enum`), the sorted pair list is the one of the submission order. -/
theorem sortByIndex_perm_enum_map {α : Type} (items : List α) (g : Nat → α → String)
    (completed : List (Nat × α)) (h : List.Perm completed items.enum) :
    sortByIndex (completed.map (fun p => (p.1, g p.1 p.2)))
      = items.enum.map (fun p => (p.1, g p.1 p.2)) := by
  set F : Nat × α → Nat × String := fun p => (p.1, g p.1 p.2) with hF
  have hperm : List.Perm (sortByIndex (completed.map F)) (items.enum.map F) :=
    (List.perm_insertionSort keyLE _).trans (h.map F)
  have henum : items.enum.Pairwise (fun a b => a.1 < b.1) := by
    have h1 : List.Pairwise (· < ·) (items.enum.map Prod.fst) := by
      rw [List.enum_map_fst]
      exact List.pairwise_lt_range _
    exact List.pairwise_map.mp h1
  have hcanon : List.Pairwise keyLT (items.enum.map F) := by
    refine List.pairwise_map.mpr ?_
    exact henum.imp (fun hab => hab)
  have hsle : List.Sorted keyLE (sortByIndex (completed.map F)) :=
    List.sorted_insertionSort keyLE _
  have hfst : (items.enum.map F).map Prod.fst = List.range items.length := by
    rw [List.map_map]
    have hcomp : (Prod.fst ∘ F) = (fun p : Nat × α => p.1) := rfl
    rw [hcomp, ← List.enum_map_fst items]
  have hnodup : ((sortByIndex (completed.map F)).map Prod.fst).Nodup := by
    have hp : List.Perm ((items.enum.map F).map Prod.fst)
        ((sortByIndex (completed.map F)).map Prod.fst) := (hperm.map _).symm
    refine hp.nodup ?_
    rw [hfst]
    exact List.nodup_range _
  have hne : (sortByIndex (completed.map F)).Pairwise (fun a b => a.1 ≠ b.1) :=
    List.pairwise_map.mp hnodup
  have hslt : List.Sorted keyLT (sortByIndex (completed.map F)) := by
    have hand := List.Pairwise.and hsle hne
    exact hand.imp (fun hab => Nat.lt_of_le_of_ne hab.1 hab.2)
  exact List.eq_of_perm_of_sorted hperm hslt hcanon

/-- The fragment list of the text generator, for any completion order, equals
the fragment list of the submission order. -/
theorem text_fragments_eq (fmtRun : Nat → Zotero.Item → Except String String)
    (collection_name : Option String) (items : List Zotero.Item)
    (completed : List (Nat × Zotero.Item)) (h : List.Perm completed items.enum) :
    Zotero.text_fragments fmtRun collection_name completed
      = items.enum.map (fun p => Zotero.format_single_item_text fmtRun collection_name p.1 p.2) := by
  simp only [Zotero.text_fragments]
  rw [sortByIndex_perm_enum_map items
    (fun i it => Zotero.format_single_item_text fmtRun collection_name i it) completed h]
  rw [List.map_map]
  rfl

/-- The fragment list of the HTML generator, for any completion order, equals
the fragment list of the submission order. -/
theorem items_html_fragments_eq (fmtRun : Nat → Zotero.Item → Except String String)
    (collection_name : Option String) (items : List Zotero.Item)
    (completed : List (Nat × Zotero.Item)) (h : List.Perm completed items.enum) :
    Zotero.generate_items_html fmtRun collection_name items completed
      = items.enum.map (fun p => Zotero.format_single_item fmtRun collection_name p.1 p.2) := by
  simp only [Zotero.generate_items_html]
  rw [sortByIndex_perm_enum_map items
    (fun i it => Zotero.format_single_item fmtRun collection_name i it) completed h]
  rw [List.map_map]
  rfl

/-- Positional form: the `i`-th entry of an `enum`-mapped list is the image
of the `i`-th element. -/
theorem enum_map_getElem {α : Type} (items : List α) (g : Nat → α → String) (i : Nat) :
    (items.enum.map (fun p => g p.1 p.2))[i]? = items[i]?.map (fun it => g i it) := by
  rw [List.getElem?_map, List.getElem?_enum]
  cases items[i]? <;> rfl

end SortLemmas

/-- C1: for every input item sequence and every completion order of the
concurrent formatting tasks (any permutation of the submitted `(index, item)`
pairs), the fragment sequence that `generate_text_output` concatenates and
the fragment list `generate_items_html` returns are in original input order,
because the collected `(index, fragment)` pairs are sorted by stored index
before concatenation: the fragment for record `i` appears at position `i`. -/
theorem render_all_output_in_input_order
    (fmtT fmtH : Nat → Zotero.Item → Except String String)
    (current_date : String) (collection_name : Option String)
    (items : List Zotero.Item) (completedT completedH : List (Nat × Zotero.Item))
    (hT : List.Perm completedT items.enum) (hH : List.Perm completedH items.enum) :
    Zotero.generate_text_output fmtT current_date collection_name items completedT
      = String.intercalate "\n" (Zotero.textHeader current_date collection_name
          ++ items.enum.map (fun p => Zotero.format_single_item_text fmtT collection_name p.1 p.2))
    ∧ Zotero.generate_items_html fmtH collection_name items completedH
        = items.enum.map (fun p => Zotero.format_single_item fmtH collection_name p.1 p.2)
    ∧ (∀ i : Nat,
        (Zotero.text_fragments fmtT collection_name completedT)[i]?
          = items[i]?.map (fun it => Zotero.format_single_item_text fmtT collection_name i it)
        ∧ (Zotero.generate_items_html fmtH collection_name items completedH)[i]?
          = items[i]?.map (fun it => Zotero.format_single_item fmtH collection_name i it)) := by
  have hTfrag := text_fragments_eq fmtT collection_name items completedT hT
  have hHfrag := items_html_fragments_eq fmtH collection_name items completedH hH
  refine ⟨?_, hHfrag, fun i => ⟨?_, ?_⟩⟩
  · unfold Zotero.generate_text_output
    rw [hTfrag]
  · rw [hTfrag]
    exact enum_map_getElem items
      (fun i it => Zotero.format_single_item_text fmtT collection_name i it) i
  · rw [hHfrag]
    exact enum_map_getElem items
      (fun i it => Zotero.format_single_item fmtH collection_name i it) i

/-- A concrete record pair used by the witnesses. -/
def wData : Zotero.ItemData :=
  { itemType := some "book", title := some "T", creators := none, date := none,
    publisher := none, place := none, ISBN := none, DOI := none,
    publicationTitle := none, volume := none, issue := none, pages := none,
    url := none, extra := none, relations := none }

/-- First sample item. -/
def wItem0 : Zotero.Item := { key := some "K0", data := some wData }

/-- Second sample item. -/
def wItem1 : Zotero.Item := { key := some "K1", data := some wData }

/-- Third sample item. -/
def wItem2 : Zotero.Item := { key := some "K2", data := some wData }

/-- A formatter-run oracle that always succeeds, with distinct content per
index. -/
def wFmtOk : Nat → Zotero.Item → Except String String :=
  fun i _ => .ok ("c" ++ toString i)

/-- A formatter-run oracle that raises exactly on index 1. -/
def wFmtErr : Nat → Zotero.Item → Except String String :=
  fun i _ => if i = 1 then .error "boom" else .ok ("c" ++ toString i)

/-- C1 witness: two records, completion order reversed; the theorem applied
at this concrete input gives the submission-order output and the positional
fact at index 0. -/
theorem render_all_output_in_input_order_witness :
    Zotero.generate_text_output wFmtOk "2026-01-01" (some "Coll")
        [wItem0, wItem1] [(1, wItem1), (0, wItem0)]
      = String.intercalate "\n" (Zotero.textHeader "2026-01-01" (some "Coll")
          ++ [wItem0, wItem1].enum.map
              (fun p => Zotero.format_single_item_text wFmtOk (some "Coll") p.1 p.2))
    ∧ (Zotero.text_fragments wFmtOk (some "Coll") [(1, wItem1), (0, wItem0)])[0]?
        = some (Zotero.format_single_item_text wFmtOk (some "Coll") 0 wItem0) := by
  have h := render_all_output_in_input_order wFmtOk wFmtOk "2026-01-01" (some "Coll")
    [wItem0, wItem1] [(1, wItem1), (0, wItem0)] [(1, wItem1), (0, wItem0)]
    (by decide) (by decide)
  exact ⟨h.1, ((h.2.2 0).1).trans (by decide)⟩

/-- C2: when the formatting of record `i` raises and every other record
formats cleanly, both renderers still produce one fragment per record: the
fragment lists keep full length, position `i` carries the inline error
fragment tagged with index `i`, and every other position `j` carries the
ordinary fragment of record `j` — the exception is caught at the task
boundary (the task body is a total function in the embedding), so it never
propagates out of the per-record task. -/
theorem failing_record_isolated
    (fmtT fmtH : Nat → Zotero.Item → Except String String)
    (collection_name : Option String)
    (items : List Zotero.Item) (completedT completedH : List (Nat × Zotero.Item))
    (hT : List.Perm completedT items.enum) (hH : List.Perm completedH items.enum)
    (i : Nat) (hi : i < items.length) (e : String) (c : Nat → String)
    (hTi : fmtT i items[i] = .error e)
    (hTj : ∀ j (hj : j < items.length), j ≠ i → fmtT j items[j] = .ok (c j))
    (hHi : fmtH i items[i] = .error e)
    (hHj : ∀ j (hj : j < items.length), j ≠ i → fmtH j items[j] = .ok (c j)) :
    (Zotero.text_fragments fmtT collection_name completedT).length = items.length
    ∧ (Zotero.text_fragments fmtT collection_name completedT)[i]?
        = some ("Error formatting item " ++ toString (i + 1) ++ ": " ++ e ++ "\n---")
    ∧ (∀ j (hj : j < items.length), j ≠ i →
        (Zotero.text_fragments fmtT collection_name completedT)[j]?
          = some (Zotero.pyOptStr collection_name ++ " #" ++ toString (j + 1)
              ++ "\n" ++ c j ++ "\n---"))
    ∧ (Zotero.generate_items_html fmtH collection_name items completedH).length = items.length
    ∧ (Zotero.generate_items_html fmtH collection_name items completedH)[i]?
        = some ("<div class='item-error'>Error formatting item " ++ toString (i + 1)
            ++ ": " ++ e ++ "</div>")
    ∧ (∀ j (hj : j < items.length), j ≠ i →
        (Zotero.generate_items_html fmtH collection_name items completedH)[j]?
          = some ("<div class='item-number'>" ++ Zotero.pyOptStr collection_name
              ++ " #" ++ toString (j + 1) ++ "</div>" ++ "\n" ++ c j)) := by
  have hTfrag := text_fragments_eq fmtT collection_name items completedT hT
  have hHfrag := items_html_fragments_eq fmtH collection_name items completedH hH
  refine ⟨?_, ?_, ?_, ?_, ?_, ?_⟩
  · rw [hTfrag, List.length_map, List.enum_length]
  · rw [hTfrag, enum_map_getElem items
      (fun j it => Zotero.format_single_item_text fmtT collection_name j it) i]
    rw [List.getElem?_eq_getElem hi]
    simp only [Option.map_some']
    unfold Zotero.format_single_item_text
    rw [hTi]
  · intro j hj hne
    rw [hTfrag, enum_map_getElem items
      (fun j it => Zotero.format_single_item_text fmtT collection_name j it) j]
    rw [List.getElem?_eq_getElem hj]
    simp only [Option.map_some']
    unfold Zotero.format_single_item_text
    rw [hTj j hj hne]
  · rw [hHfrag, List.length_map, List.enum_length]
  · rw [hHfrag, enum_map_getElem items
      (fun j it => Zotero.format_single_item fmtH collection_name j it) i]
    rw [List.getElem?_eq_getElem hi]
    simp only [Option.map_some']
    unfold Zotero.format_single_item
    rw [hHi]
  · intro j hj hne
    rw [hHfrag, enum_map_getElem items
      (fun j it => Zotero.format_single_item fmtH collection_name j it) j]
    rw [List.getElem?_eq_getElem hj]
    simp only [Option.map_some']
    unfold Zotero.format_single_item
    rw [hHj j hj hne]

/-- C2 witness: three records with the middle one raising; the theorem
applied at this concrete input gives full length, the error fragment at
position 1 and an ordinary fragment at position 2. -/
theorem failing_record_isolated_witness :
    (Zotero.text_fragments wFmtErr (some "Coll") [(2, wItem2), (0, wItem0), (1, wItem1)]).length = 3
    ∧ (Zotero.text_fragments wFmtErr (some "Coll") [(2, wItem2), (0, wItem0), (1, wItem1)])[1]?
        = some ("Error formatting item 2: boom\n---")
    ∧ (Zotero.generate_items_html wFmtErr (some "Coll") [wItem0, wItem1, wItem2]
          [(2, wItem2), (0, wItem0), (1, wItem1)])[2]?
        = some ("<div class='item-number'>Coll #3</div>" ++ "\n" ++ "c2") := by
  have h := failing_record_isolated wFmtErr wFmtErr (some "Coll")
    [wItem0, wItem1, wItem2]
    [(2, wItem2), (0, wItem0), (1, wItem1)] [(2, wItem2), (0, wItem0), (1, wItem1)]
    (by decide) (by decide) 1 (by decide) "boom" (fun j => "c" ++ toString j)
    rfl
    (by
      intro j hj hne
      have hj3 : j < 3 := by simpa using hj
      interval_cases j
      · rfl
      · exact absurd rfl hne
      · rfl)
    rfl
    (by
      intro j hj hne
      have hj3 : j < 3 := by simpa using hj
      interval_cases j
      · rfl
      · exact absurd rfl hne
      · rfl)
  refine ⟨h.1, ?_, ?_⟩
  · have := h.2.1
    simpa using this
  · have := h.2.2.2.2.2 2 (by decide) (by decide)
    simpa using this

/-- C3: with credentials present and the Drive calls succeeding,
`get_drive_url_by_filename` returns `none` when the search yields zero
matches; the first match's link field when `return_all` is false; and the
list of links of all matched entries — entries lacking a `webViewLink`
dropped — when `return_all` is true. -/
theorem drive_url_return_shape (svc : Zotero.DriveSvc) (return_all folderNameGiven : Bool) :
    ((Zotero.search_file_in_drive svc (if return_all then 10 else 1) folderNameGiven true).1 = []
      → (Zotero.get_drive_url_by_filename true (.ok svc) return_all folderNameGiven).1 = none)
    ∧ (∀ f rest,
        (Zotero.search_file_in_drive svc (if return_all then 10 else 1) folderNameGiven true).1
            = f :: rest
        → return_all = false
        → (Zotero.get_drive_url_by_filename true (.ok svc) return_all folderNameGiven).1
            = f.webViewLink.map Sum.inl)
    ∧ ((Zotero.search_file_in_drive svc (if return_all then 10 else 1) folderNameGiven true).1 ≠ []
        → return_all = true
        → (Zotero.get_drive_url_by_filename true (.ok svc) return_all folderNameGiven).1
            = some (Sum.inr
                ((Zotero.search_file_in_drive svc (if return_all then 10 else 1)
                    folderNameGiven true).1.filterMap (fun r => r.webViewLink)))) := by
  refine ⟨?_, ?_, ?_⟩
  · intro hempty
    simp only [Zotero.get_drive_url_by_filename, Bool.true_eq_false, if_false, hempty]
  · intro f rest hcons hra
    subst hra
    have hcons2 : (Zotero.search_file_in_drive svc 1 folderNameGiven true).1 = f :: rest := by
      simpa using hcons
    simp only [Zotero.get_drive_url_by_filename, Bool.true_eq_false, if_false, hcons2,
      Bool.false_eq_true, Bool.if_false_left]
  · intro hne hra
    subst hra
    cases hcons : (Zotero.search_file_in_drive svc 10 folderNameGiven true).1 with
    | nil => exact absurd (by simpa using hcons) hne
    | cons f rest =>
      simp only [Zotero.get_drive_url_by_filename, Bool.true_eq_false, if_false, hcons,
        if_true]

/-- A Drive service with a single matching file carrying a link. -/
def wSvc : Zotero.DriveSvc :=
  { pages := [[{ id := "F1", name := "book.pdf", webViewLink := some "https://d/f1" }]],
    sharedFiles := [], folderFound := false }

/-- C3 witness: against an index with exactly one match, the single-link form
returns that file's link, and against an empty index the result is absent. -/
theorem drive_url_return_shape_witness :
    (Zotero.get_drive_url_by_filename true (.ok wSvc) false false).1
      = some (Sum.inl "https://d/f1")
    ∧ (Zotero.get_drive_url_by_filename true
        (.ok { pages := [], sharedFiles := [], folderFound := false }) false false).1 = none := by
  constructor
  · have h := (drive_url_return_shape wSvc false false).2.1
      { id := "F1", name := "book.pdf", webViewLink := some "https://d/f1" } []
      (by decide) rfl
    exact h.trans (by decide)
  · exact (drive_url_return_shape
      { pages := [], sharedFiles := [], folderFound := false } false false).1 (by decide)

/-- Every issuance the conditional shared query records happened with
`include_shared` set, outside folder scope, and with fewer than `max_results`
results collected. -/
theorem sharedPass_issued (maxr : Nat) (incl fs : Bool)
    (shared acc : List Zotero.DriveFile) :
    ∀ k ∈ (Zotero.sharedPass maxr incl fs shared acc).2,
      incl = true ∧ fs = false ∧ k < maxr := by
  intro k hk
  unfold Zotero.sharedPass at hk
  by_cases h : incl = true ∧ acc.length < maxr ∧ fs = false
  · rw [if_pos h] at hk
    simp only [List.mem_singleton] at hk
    subst hk
    exact ⟨h.1, h.2.2, h.2.1⟩
  · rw [if_neg h] at hk
    simp at hk

/-- The issuance log of the whole pagination loop satisfies the same
condition. -/
theorem searchGo_issued (maxr : Nat) (incl fs : Bool) (shared : List Zotero.DriveFile) :
    ∀ (pages : List (List Zotero.DriveFile)) (acc : List Zotero.DriveFile),
      ∀ k ∈ (Zotero.searchGo maxr incl fs shared pages acc).2,
        incl = true ∧ fs = false ∧ k < maxr := by
  intro pages
  induction pages with
  | nil =>
    intro acc k hk
    unfold Zotero.searchGo at hk
    exact sharedPass_issued maxr incl fs shared acc k hk
  | cons page rest ih =>
    intro acc k hk
    cases rest with
    | nil =>
      unfold Zotero.searchGo at hk
      exact sharedPass_issued maxr incl fs shared (acc ++ page) k hk
    | cons r rs =>
      unfold Zotero.searchGo at hk
      dsimp only at hk
      by_cases hlen : (Zotero.sharedPass maxr incl fs shared (acc ++ page)).1.length < maxr
      · rw [if_pos hlen] at hk
        simp only [List.mem_append] at hk
        cases hk with
        | inl h1 => exact sharedPass_issued maxr incl fs shared (acc ++ page) k h1
        | inr h2 =>
          exact ih (Zotero.sharedPass maxr incl fs shared (acc ++ page)).1 k h2
      · rw [if_neg hlen] at hk
        exact sharedPass_issued maxr incl fs shared (acc ++ page) k hk

/-- One step of the merge loop. -/
theorem mergeShared_cons (results : List Zotero.DriveFile) (f : Zotero.DriveFile)
    (fs : List Zotero.DriveFile) :
    Zotero.mergeShared results (f :: fs)
      = Zotero.mergeShared
          (if results.any (fun g => g.id == f.id) then results else results ++ [f]) fs := by
  unfold Zotero.mergeShared
  rw [List.foldl_cons]

/-- The merge of the shared query's results preserves the collected list as a
prefix and only adds files whose id is not already present: id-uniqueness is
preserved. -/
theorem mergeShared_spec (shared : List Zotero.DriveFile) :
    ∀ results : List Zotero.DriveFile,
      results <+: Zotero.mergeShared results shared
      ∧ ((results.map (fun f => f.id)).Nodup →
          ((Zotero.mergeShared results shared).map (fun f => f.id)).Nodup) := by
  induction shared with
  | nil =>
    intro results
    exact ⟨List.prefix_refl _, fun h => h⟩
  | cons f fs ih =>
    intro results
    rw [mergeShared_cons]
    by_cases h : results.any (fun g => g.id == f.id)
    · rw [if_pos h]
      exact ih results
    · rw [if_neg h]
      have hnotin : f.id ∉ results.map (fun g => g.id) := by
        intro hmem
        apply h
        rw [List.any_eq_true]
        simp only [List.mem_map] at hmem
        obtain ⟨g, hg, hgid⟩ := hmem
        exact ⟨g, hg, by simp [hgid]⟩
      refine ⟨?_, ?_⟩
      · exact ((List.prefix_append results [f]).trans (ih (results ++ [f])).1)
      · intro hnd
        refine (ih (results ++ [f])).2 ?_
        rw [List.map_append]
        simp only [List.map_cons, List.map_nil]
        rw [List.nodup_append]
        exact ⟨hnd, List.nodup_singleton _, by
          intro a ha hb
          simp only [List.mem_singleton] at hb
          subst hb
          exact hnotin ha⟩

/-- C4: in `search_file_in_drive` the second, shared-with-the-caller query is
issued only while `include_shared` is set, the search is not folder-scoped
and fewer than `max_results` results have been found so far; its results are
merged in only when their id is not already present (the merge keeps the
collected list as a prefix and preserves id-uniqueness); and the returned
list never exceeds `max_results` entries. -/
theorem search_file_shared_query_spec (svc : Zotero.DriveSvc) (maxr : Nat)
    (fng incl : Bool) :
    (Zotero.search_file_in_drive svc maxr fng incl).1.length ≤ maxr
    ∧ (∀ k ∈ (Zotero.search_file_in_drive svc maxr fng incl).2,
        incl = true ∧ (fng && svc.folderFound) = false ∧ k < maxr)
    ∧ (∀ results shared, results <+: Zotero.mergeShared results shared
        ∧ ((results.map (fun f => f.id)).Nodup →
            ((Zotero.mergeShared results shared).map (fun f => f.id)).Nodup)) := by
  refine ⟨?_, ?_, ?_⟩
  · unfold Zotero.search_file_in_drive
    simp only
    rw [List.length_take]
    exact min_le_left _ _
  · intro k hk
    unfold Zotero.search_file_in_drive at hk
    simp only at hk
    exact searchGo_issued maxr incl (fng && svc.folderFound) svc.sharedFiles
      svc.pages [] k hk
  · intro results shared
    exact mergeShared_spec shared results

/-- C4 witness: one page holding one file, two shared files one of which is a
duplicate by id: the shared query was issued once at count 1, its duplicate
is dropped, and the returned list is within the limit. -/
theorem search_file_shared_query_spec_witness :
    (Zotero.search_file_in_drive
        { pages := [[{ id := "A", name := "a", webViewLink := none }]],
          sharedFiles := [{ id := "A", name := "a", webViewLink := none },
                          { id := "B", name := "b", webViewLink := some "L" }],
          folderFound := false } 10 false true).1.length ≤ 10
    ∧ (true = true ∧ (false && false) = false ∧ 1 < 10)
    ∧ (([{ id := "A", name := "a", webViewLink := none }].map
          (fun f : Zotero.DriveFile => f.id)).Nodup →
        ((Zotero.mergeShared [{ id := "A", name := "a", webViewLink := none }]
            [{ id := "A", name := "a", webViewLink := none },
             { id := "B", name := "b", webViewLink := some "L" }]).map
          (fun f => f.id)).Nodup) := by
  have h := search_file_shared_query_spec
    { pages := [[{ id := "A", name := "a", webViewLink := none }]],
      sharedFiles := [{ id := "A", name := "a", webViewLink := none },
                      { id := "B", name := "b", webViewLink := some "L" }],
      folderFound := false } 10 false true
  refine ⟨h.1, ?_, ?_⟩
  · have hk := h.2.1 1 (by decide)
    simpa using hk
  · exact (h.2.2 [{ id := "A", name := "a", webViewLink := none }]
      [{ id := "A", name := "a", webViewLink := none },
       { id := "B", name := "b", webViewLink := some "L" }]).2

/-- C5: when any step of the Drive resolution raises, the exception is caught
inside `get_drive_url_by_filename`: the function writes a message to the
error stream and returns `none` (no exception reaches the caller — the
embedding is a total function), and `get_attachment_paths` then emits the
attachment without a cloud link. -/
theorem drive_error_recovered (e : String) (return_all fng : Bool)
    (env : Zotero.ZotEnv) (a : Zotero.Child) (ct aid fn k : String)
    (it : Zotero.Item)
    (hcreds : env.hasCreds = true)
    (htype : a.itemType = some "attachment") (hct : a.contentType = some ct)
    (hsupp : ct ∈ Zotero.supportedContentTypes)
    (hkey : a.key = some aid) (hfn : a.filename = some fn)
    (hik : it.key = some k) (hch : env.children k = .ok [a])
    (herr : env.drive fn = .error e) :
    Zotero.get_drive_url_by_filename true (.error e) return_all fng
        = (none, ["Error accessing Google Drive: " ++ e])
    ∧ (Zotero.get_attachment_paths env (some it)).1
        = [{ local_path := "storage/" ++ aid ++ "/" ++ fn, drive_url := none }] := by
  constructor
  · rfl
  · have hurl : Zotero.driveUrlFor env fn = none := by
      unfold Zotero.driveUrlFor
      rw [hcreds]
      simp only [Bool.true_eq_false, if_false]
      unfold Zotero.get_drive_url_by_filename
      rw [herr]
      simp
    unfold Zotero.get_attachment_paths
    simp [hik, hch, htype, hct, hkey, hfn, hsupp, hurl]

/-- A concrete environment whose Drive resolution always raises. -/
def wErrEnv : Zotero.ZotEnv :=
  { children := fun _ =>
      .ok [{ key := some "ATT1", itemType := some "attachment",
             contentType := some "application/pdf", filename := some "b.pdf" }],
    hasCreds := true,
    drive := fun _ => .error "rate limit" }

/-- C5 witness: a failing resolution at a concrete supported attachment
yields the stderr message, an absent link from the resolver, and the
attachment emitted without a cloud link. -/
theorem drive_error_recovered_witness :
    Zotero.get_drive_url_by_filename true (.error "rate limit") false false
        = (none, ["Error accessing Google Drive: " ++ "rate limit"])
    ∧ (Zotero.get_attachment_paths wErrEnv (some { key := some "K", data := some wData })).1
        = [{ local_path := "storage/" ++ "ATT1" ++ "/" ++ "b.pdf", drive_url := none }] :=
  drive_error_recovered "rate limit" false false wErrEnv
    { key := some "ATT1", itemType := some "attachment",
      contentType := some "application/pdf", filename := some "b.pdf" }
    "application/pdf" "ATT1" "b.pdf" "K" { key := some "K", data := some wData }
    rfl rfl rfl (by decide) rfl rfl rfl rfl rfl

/-- A suffix that fits inside a longer suffix of the same list is a suffix of
it. -/
theorem suffix_of_suffix_length_le {α : Type} {l₁ l₂ l₃ : List α}
    (h1 : l₁ <:+ l₃) (h2 : l₂ <:+ l₃) (h : l₁.length ≤ l₂.length) : l₁ <:+ l₂ := by
  rw [← List.reverse_prefix] at h1 h2 ⊢
  exact List.prefix_of_prefix_length_le h1 h2 (by simpa using h)

/-- A pattern that contains a dot but no slash is never a prefix of
`u ++ '/' :: v` when `u` is dot-free. -/
theorem no_dotted_prefix_through_slash (pat : List Char) :
    ∀ u v : List Char, '.' ∈ pat → '/' ∉ pat → '.' ∉ u →
      ¬ (pat <+: u ++ '/' :: v) := by
  induction pat with
  | nil =>
    intro u v hdot _ _ _
    simp at hdot
  | cons p ps ih =>
    intro u v hdot hslash hu hpre
    cases u with
    | nil =>
      rw [List.nil_append, List.cons_prefix_cons] at hpre
      exact hslash (by rw [hpre.1]; exact List.mem_cons_self _ _)
    | cons c u' =>
      rw [List.cons_append, List.cons_prefix_cons] at hpre
      rcases List.mem_cons.mp hdot with hpd | hpsd
      · apply hu
        have hc : ('.' : Char) = c := hpd.trans hpre.1
        rw [← hc]
        exact List.mem_cons_self _ _
      · exact ih u' v hpsd (fun hm => hslash (List.mem_cons_of_mem _ hm))
          (fun hm => hu (List.mem_cons_of_mem _ hm)) hpre.2

/-- `.epub` is not a suffix of `r ++ '/' :: name` when `name` is dot-free. -/
theorem epub_not_suffix (r name : List Char) (hnodot : '.' ∉ name) :
    ¬ (".epub".toList <:+ r ++ '/' :: name) := by
  intro h
  rw [← List.reverse_prefix] at h
  have hrev : (r ++ '/' :: name).reverse = name.reverse ++ '/' :: r.reverse := by
    rw [List.reverse_append, List.reverse_cons, List.append_assoc]
    rfl
  rw [hrev] at h
  refine no_dotted_prefix_through_slash (".epub".toList.reverse)
    name.reverse r.reverse (by decide) (by decide)
    (fun hm => hnodot (List.mem_reverse.mp hm)) h

/-- The truncation step keeps the result a suffix of its input, and keeps any
5-character suffix (the found anchor occurrence spans 15 characters, so the
kept slice is at least that long). -/
theorem truncate_keeps_suffix (s t : List Char) (h : t <:+ s) (hlen : t.length ≤ 15) :
    t <:+ Calibre.truncateAtCalibre s ∧ Calibre.truncateAtCalibre s <:+ s := by
  unfold Calibre.truncateAtCalibre
  cases hfind : Calibre.findSub (Calibre.lowerStr s) ("calibre library".toList) with
  | none => exact ⟨h, List.suffix_refl s⟩
  | some i =>
    unfold Calibre.findSub at hfind
    have hpred := List.find?_some hfind
    have hpre : "calibre library".toList <+: (Calibre.lowerStr s).drop i :=
      List.isPrefixOf_iff_prefix.mp hpred
    have hlow : (Calibre.lowerStr s).length = s.length := List.length_map _ _
    have hdroplen : 15 ≤ (s.drop i).length := by
      have h1 := hpre.length_le
      rw [List.length_drop] at h1 ⊢
      rw [hlow] at h1
      simpa using h1
    refine ⟨?_, List.drop_suffix i s⟩
    exact suffix_of_suffix_length_le h (List.drop_suffix i s) (hlen.trans hdroplen)

/-- C6: for the declared format `EPUB` and a stored name without a dot, the
derived local path ends in `.epub` and does not end in `.epub.epub` (the
suffix appears exactly once), and re-applying the suffix rule to the derived
path does not append the suffix a second time. -/
theorem epub_extension_exactly_once_and_idempotent
    (library_path book_path fmtName : List Char) (hnodot : '.' ∉ fmtName) :
    (".epub".toList <:+ Calibre.derive_local_path library_path book_path
        ("EPUB".toList) fmtName)
    ∧ ¬ (".epub.epub".toList <:+ Calibre.derive_local_path library_path book_path
        ("EPUB".toList) fmtName)
    ∧ Calibre.ensureExtension
        (Calibre.derive_local_path library_path book_path ("EPUB".toList) fmtName)
        ("epub".toList)
      = Calibre.derive_local_path library_path book_path ("EPUB".toList) fmtName := by
  have hext : Calibre.lowerStr ("EPUB".toList) = "epub".toList := by decide
  have hfname : Calibre.formatFilename fmtName ("epub".toList)
      = fmtName ++ ".epub".toList := by
    unfold Calibre.formatFilename
    rw [if_neg hnodot]
    rfl
  set s : List Char :=
    library_path ++ '/' :: book_path ++ '/' :: (fmtName ++ ".epub".toList) with hs
  have hsuf : ".epub".toList <:+ s := by
    have : s = (library_path ++ '/' :: book_path ++ '/' :: fmtName) ++ ".epub".toList := by
      rw [hs]
      simp [List.append_assoc]
    rw [this]
    exact List.suffix_append _ _
  have htr := truncate_keeps_suffix s (".epub".toList) hsuf (by decide)
  have hderive : Calibre.derive_local_path library_path book_path ("EPUB".toList) fmtName
      = Calibre.truncateAtCalibre s := by
    unfold Calibre.derive_local_path
    rw [hext]
    dsimp only
    rw [hfname]
    unfold Calibre.ensureExtension
    rw [if_pos ?hcond]
    case hcond =>
      have hmap := List.IsSuffix.map Calibre.lowerChar htr.1
      have hlowfix : List.map Calibre.lowerChar (".epub".toList) = ".epub".toList := by
        decide
      rw [hlowfix] at hmap
      exact hmap
  have hnotdouble : ¬ (".epub.epub".toList <:+ s) := by
    intro hdb
    obtain ⟨w, hw⟩ := hdb
    have hsplit : (w ++ ".epub".toList) ++ ".epub".toList = s := by
      rw [← hw]
      simp
    have hs2 : s = (library_path ++ '/' :: book_path ++ '/' :: fmtName) ++ ".epub".toList := by
      rw [hs]
      simp [List.append_assoc]
    rw [hs2] at hsplit
    have hcancel := List.append_cancel_right hsplit
    have hepubsuf : ".epub".toList <:+ library_path ++ '/' :: book_path ++ '/' :: fmtName :=
      ⟨w, hcancel⟩
    have : ".epub".toList <:+ (library_path ++ '/' :: book_path) ++ '/' :: fmtName := by
      simpa [List.append_assoc] using hepubsuf
    exact epub_not_suffix (library_path ++ '/' :: book_path) fmtName hnodot this
  refine ⟨?_, ?_, ?_⟩
  · rw [hderive]
    exact htr.1
  · rw [hderive]
    intro hdb
    exact hnotdouble (hdb.trans htr.2)
  · rw [hderive]
    unfold Calibre.ensureExtension
    rw [if_pos ?hcond2]
    case hcond2 =>
      have hmap := List.IsSuffix.map Calibre.lowerChar htr.1
      have hlowfix : List.map Calibre.lowerChar (".epub".toList) = ".epub".toList := by
        decide
      rw [hlowfix] at hmap
      exact hmap

/-- C6 witness: the name `book` with format `EPUB` under a concrete library
path derives a path ending in `.epub` exactly once, and the suffix rule is
idempotent on it. -/
theorem epub_extension_witness :
    (".epub".toList <:+ Calibre.derive_local_path ("/home/u".toList) ("Author/Book (7)".toList)
        ("EPUB".toList) ("book".toList))
    ∧ ¬ (".epub.epub".toList <:+ Calibre.derive_local_path ("/home/u".toList)
        ("Author/Book (7)".toList) ("EPUB".toList) ("book".toList))
    ∧ Calibre.ensureExtension
        (Calibre.derive_local_path ("/home/u".toList) ("Author/Book (7)".toList)
          ("EPUB".toList) ("book".toList)) ("epub".toList)
      = Calibre.derive_local_path ("/home/u".toList) ("Author/Book (7)".toList)
          ("EPUB".toList) ("book".toList) :=
  epub_extension_exactly_once_and_idempotent ("/home/u".toList)
    ("Author/Book (7)".toList) ("book".toList) (by decide)

/-- C7 counterexample: at a concrete failing conversion with `verbose` off,
`generate_pdf_output` terminates the process with status 1 but writes nothing
to the error stream (the error report goes through `print_progress`, which
prints only when verbose) — so the claim that a message is always written to
the error stream fails. -/
theorem pdf_error_silent_when_not_verbose :
    (Zotero.generate_pdf_output (.error "conversion failed") false).2 = []
    ∧ (Zotero.generate_pdf_output (.error "conversion failed") false).1
        = ProcOutcome.exited 1
    ∧ (Calibre.generate_pdf_output (.error "conversion failed") false).2 = [] := by
  refine ⟨rfl, rfl, rfl⟩

/-- C7 amended: on a conversion error both scripts' `generate_pdf_output`
terminate the process with the non-zero exit status 1 (PDF failure is fatal
for the invocation); the error message is written to the error stream exactly
when verbose mode is enabled. -/
theorem pdf_error_fatal (e : String) (verbose : Bool) :
    (Zotero.generate_pdf_output (.error e) verbose).1 = ProcOutcome.exited 1
    ∧ (verbose = true →
        (Zotero.generate_pdf_output (.error e) verbose).2
          = ["Error generating PDF with " ++ Zotero.PDF_GENERATOR_NAME ++ ": " ++ e])
    ∧ (Calibre.generate_pdf_output (.error e) verbose).1 = ProcOutcome.exited 1
    ∧ (verbose = true →
        (Calibre.generate_pdf_output (.error e) verbose).2
          = ["Error generating PDF with pdfkit: " ++ e]) := by
  refine ⟨rfl, ?_, rfl, ?_⟩
  · intro hv
    subst hv
    rfl
  · intro hv
    subst hv
    rfl

/-- C7 witness: the amended theorem applied at a concrete error with verbose
enabled: exit status 1 and the message on the error stream, in both
scripts. -/
theorem pdf_error_fatal_witness :
    (Zotero.generate_pdf_output (.error "boom") true).1 = ProcOutcome.exited 1
    ∧ (Zotero.generate_pdf_output (.error "boom") true).2
        = ["Error generating PDF with " ++ Zotero.PDF_GENERATOR_NAME ++ ": " ++ "boom"]
    ∧ (Calibre.generate_pdf_output (.error "boom") true).1 = ProcOutcome.exited 1
    ∧ (Calibre.generate_pdf_output (.error "boom") true).2
        = ["Error generating PDF with pdfkit: " ++ "boom"] := by
  have h := pdf_error_fatal "boom" true
  exact ⟨h.1, h.2.1 rfl, h.2.2.1, h.2.2.2 rfl⟩

/-- A concrete run environment for the display counterexample and
witnesses. -/
def wRunEnv : Zotero.RunEnv :=
  { fmtTextRun := wFmtOk, fmtHtmlRun := wFmtOk,
    textCompleted := [(0, wItem0)], htmlCompleted := [(0, wItem0)],
    current_date := "2026-01-01", pdfConv := .ok (), verbose := false }

/-- A concrete Calibre book for the display witnesses. -/
def wBook : Calibre.Book :=
  { id := 1, title := some "B", authors := [], path := "A/B", pubdate := none,
    isbn := none, series := none, publisher := none, formats := [] }

/-- A Calibre formatter-run oracle that always succeeds. -/
def wBFmtOk : Nat → Calibre.Book → Except String String :=
  fun i _ => .ok ("c" ++ toString i)

/-- A concrete Calibre run environment. -/
def wCalEnv : Calibre.RunEnv :=
  { fmtTextRun := wBFmtOk, fmtHtmlRun := wBFmtOk,
    textCompleted := [(0, wBook)], htmlCompleted := [(0, wBook)],
    current_date := "2026-01-01", now := "2026-01-01 00:00:00",
    pdfConv := .ok (), verbose := false }

/-- C8 counterexample: with format `pdf` and the destination absent, the
assembled document is not written to standard output (as the claim, read for
every output format, would require): the pdf branch substitutes the default
file name `zotero_items.pdf` and hands the document to the converter
instead. -/
theorem pdf_absent_destination_not_stdout :
    (Zotero.display_items wRunEnv [wItem0] OutputFormat.pdf none (some "Coll")).1
      ≠ [Emission.stdoutMsg (Zotero.generate_html_output wFmtOk "2026-01-01" (some "Coll")
          [wItem0] [(0, wItem0)])] := by
  intro h
  have h2 : (Zotero.display_items wRunEnv [wItem0] OutputFormat.pdf none (some "Coll")).1.length
      = 2 := rfl
  rw [h] at h2
  simp at h2

/-- C8 amended: when the destination is absent, the `text` and `html`
documents are written to standard output, while `pdf` substitutes the
default file name (`zotero_items.pdf` / `calibre_books.pdf`) and writes the
PDF there; when the destination is present, the named file is written (for
text/html through a scoped `with open` write that closes the file on exit of
the block, for pdf through the converter) — in both scripts. -/
theorem display_destination_routing (env : Zotero.RunEnv) (it : Zotero.Item)
    (items : List Zotero.Item) (coll : Option String) (fn : String)
    (cenv : Calibre.RunEnv) (bk : Calibre.Book) (books : List Calibre.Book)
    (notice : Option String)
    (hconv : env.pdfConv = .ok ()) (hcconv : cenv.pdfConv = .ok ()) :
    Zotero.display_items env (it :: items) OutputFormat.text none coll
      = ([Emission.stdoutMsg (Zotero.generate_text_output env.fmtTextRun env.current_date
            coll (it :: items) env.textCompleted)], ProcOutcome.ok)
    ∧ Zotero.display_items env (it :: items) OutputFormat.text (some fn) coll
      = ([Emission.fileWrite fn (Zotero.generate_text_output env.fmtTextRun env.current_date
            coll (it :: items) env.textCompleted),
          Emission.stdoutMsg ("Text output saved to " ++ fn)], ProcOutcome.ok)
    ∧ Zotero.display_items env (it :: items) OutputFormat.html none coll
      = ([Emission.stdoutMsg (Zotero.generate_html_output env.fmtHtmlRun env.current_date
            coll (it :: items) env.htmlCompleted)], ProcOutcome.ok)
    ∧ Zotero.display_items env (it :: items) OutputFormat.html (some fn) coll
      = ([Emission.fileWrite fn (Zotero.generate_html_output env.fmtHtmlRun env.current_date
            coll (it :: items) env.htmlCompleted),
          Emission.stdoutMsg ("HTML output saved to " ++ fn)], ProcOutcome.ok)
    ∧ Zotero.display_items env (it :: items) OutputFormat.pdf (some fn) coll
      = ([Emission.pdfGen fn (Zotero.generate_html_output env.fmtHtmlRun env.current_date
            coll (it :: items) env.htmlCompleted),
          Emission.stdoutMsg ("PDF output saved to " ++ fn)], ProcOutcome.ok)
    ∧ Zotero.display_items env (it :: items) OutputFormat.pdf none coll
      = ([Emission.pdfGen "zotero_items.pdf" (Zotero.generate_html_output env.fmtHtmlRun
            env.current_date coll (it :: items) env.htmlCompleted),
          Emission.stdoutMsg ("PDF output saved to " ++ "zotero_items.pdf")], ProcOutcome.ok)
    ∧ Calibre.display_books cenv (bk :: books) OutputFormat.text none notice
      = ([Emission.stdoutMsg (Calibre.generate_text_output cenv.fmtTextRun cenv.current_date
            (bk :: books) cenv.textCompleted)], ProcOutcome.ok)
    ∧ Calibre.display_books cenv (bk :: books) OutputFormat.text (some fn) notice
      = ([Emission.fileWrite fn (Calibre.generate_text_output cenv.fmtTextRun cenv.current_date
            (bk :: books) cenv.textCompleted),
          Emission.stdoutMsg ("Text output saved to " ++ fn)], ProcOutcome.ok)
    ∧ Calibre.display_books cenv (bk :: books) OutputFormat.html none notice
      = ([Emission.stdoutMsg (Calibre.generate_html_output cenv.fmtHtmlRun cenv.current_date
            cenv.now (bk :: books) cenv.htmlCompleted notice)], ProcOutcome.ok)
    ∧ Calibre.display_books cenv (bk :: books) OutputFormat.html (some fn) notice
      = ([Emission.fileWrite fn (Calibre.generate_html_output cenv.fmtHtmlRun cenv.current_date
            cenv.now (bk :: books) cenv.htmlCompleted notice),
          Emission.stdoutMsg ("HTML output saved to " ++ fn)], ProcOutcome.ok)
    ∧ Calibre.display_books cenv (bk :: books) OutputFormat.pdf (some fn) notice
      = ([Emission.pdfGen fn (Calibre.generate_html_output cenv.fmtHtmlRun cenv.current_date
            cenv.now (bk :: books) cenv.htmlCompleted notice),
          Emission.stdoutMsg ("PDF output saved to " ++ fn)], ProcOutcome.ok)
    ∧ Calibre.display_books cenv (bk :: books) OutputFormat.pdf none notice
      = ([Emission.pdfGen "calibre_books.pdf" (Calibre.generate_html_output cenv.fmtHtmlRun
            cenv.current_date cenv.now (bk :: books) cenv.htmlCompleted notice),
          Emission.stdoutMsg ("PDF output saved to " ++ "calibre_books.pdf")], ProcOutcome.ok) := by
  refine ⟨rfl, rfl, rfl, rfl, ?_, ?_, rfl, rfl, rfl, rfl, ?_, ?_⟩
  · simp only [Zotero.display_items, hconv, Zotero.generate_pdf_output,
      Zotero.PDF_GENERATOR_AVAILABLE, Bool.true_eq_false, if_false, Option.getD_some]
  · simp only [Zotero.display_items, hconv, Zotero.generate_pdf_output,
      Zotero.PDF_GENERATOR_AVAILABLE, Bool.true_eq_false, if_false, Option.getD_none]
  · simp only [Calibre.display_books, hcconv, Calibre.generate_pdf_output, Option.getD_some]
  · simp only [Calibre.display_books, hcconv, Calibre.generate_pdf_output, Option.getD_none]

/-- C8 witness: the amended routing at a concrete input — text with no
destination goes to standard output, pdf with no destination goes to the
default-named file in both scripts. -/
theorem display_destination_routing_witness :
    Zotero.display_items wRunEnv [wItem0] OutputFormat.text none (some "Coll")
      = ([Emission.stdoutMsg (Zotero.generate_text_output wRunEnv.fmtTextRun
            wRunEnv.current_date (some "Coll") [wItem0] wRunEnv.textCompleted)], ProcOutcome.ok)
    ∧ Zotero.display_items wRunEnv [wItem0] OutputFormat.pdf none (some "Coll")
      = ([Emission.pdfGen "zotero_items.pdf" (Zotero.generate_html_output wRunEnv.fmtHtmlRun
            wRunEnv.current_date (some "Coll") [wItem0] wRunEnv.htmlCompleted),
          Emission.stdoutMsg ("PDF output saved to " ++ "zotero_items.pdf")], ProcOutcome.ok)
    ∧ Calibre.display_books wCalEnv [wBook] OutputFormat.pdf none none
      = ([Emission.pdfGen "calibre_books.pdf" (Calibre.generate_html_output wCalEnv.fmtHtmlRun
            wCalEnv.current_date wCalEnv.now [wBook] wCalEnv.htmlCompleted none),
          Emission.stdoutMsg ("PDF output saved to " ++ "calibre_books.pdf")], ProcOutcome.ok) := by
  have h := display_destination_routing wRunEnv wItem0 [] (some "Coll") "out"
    wCalEnv wBook [] none rfl rfl
  exact ⟨h.1, h.2.2.2.2.2.1, h.2.2.2.2.2.2.2.2.2.2.2⟩

/-- Items passed through by the `get_items` filter come from the input and
carry a `data` dictionary. -/
theorem filterRealItems_mem (raw : List Zotero.Item) :
    ∀ out : List Zotero.Item, Zotero.filterRealItems raw = .ok out →
      ∀ it ∈ out, it ∈ raw ∧ it.data.isSome = true := by
  induction raw with
  | nil =>
    intro out h it hit
    unfold Zotero.filterRealItems at h
    cases h
    simp at hit
  | cons a rest ih =>
    intro out h it hit
    unfold Zotero.filterRealItems at h
    cases hd : a.data with
    | none =>
      rw [hd] at h
      cases h
    | some d =>
      rw [hd] at h
      cases htail : Zotero.filterRealItems rest with
      | error e =>
        rw [htail] at h
        simp only [bind, Except.bind] at h
        cases h
      | ok tail =>
        rw [htail] at h
        simp only [bind, Except.bind] at h
        by_cases hty : d.itemType ≠ some "note" ∧ d.itemType ≠ some "attachment"
        · rw [if_pos hty] at h
          cases h
          rcases List.mem_cons.mp hit with hEq | hmem
          · subst hEq
            exact ⟨List.mem_cons_self _ _, by rw [hd]; rfl⟩
          · have := ih _ htail it hmem
            exact ⟨List.mem_cons_of_mem _ this.1, this.2⟩
        · rw [if_neg hty] at h
          cases h
          have := ih _ htail it hit
          exact ⟨List.mem_cons_of_mem _ this.1, this.2⟩

/-- C9: records are immutable once fetched: `format_item_text`,
`format_item_html` and `get_attachment_paths` return their input record
unchanged (the embeddings thread the record through every step, and the
source writes no field), and every record `get_items` returns is an input
record with exactly its `relations` field deleted — the only write happens
inside `get_items` before the records are handed out. -/
theorem record_immutable_after_fetch (env : Zotero.ZotEnv) (item : Zotero.Item)
    (raw out : List Zotero.Item) :
    (Zotero.format_item_text env item).2 = item
    ∧ (Zotero.format_item_html env item).2 = item
    ∧ (Zotero.get_attachment_paths env (some item)).2 = some item
    ∧ (Zotero.get_items raw = .ok out →
        ∀ it ∈ out, ∃ it0 ∈ raw, it = Zotero.removeRelations it0
          ∧ it.data.map Zotero.ItemData.relations = some none) := by
  refine ⟨?_, ?_, rfl, ?_⟩
  · unfold Zotero.format_item_text
    cases item.data <;> rfl
  · unfold Zotero.format_item_html
    cases item.data <;> rfl
  · intro h it hit
    unfold Zotero.get_items at h
    cases hfil : Zotero.filterRealItems raw with
    | error e =>
      rw [hfil] at h
      simp only [bind, Except.bind] at h
      cases h
    | ok filtered =>
      rw [hfil] at h
      simp only [bind, Except.bind, pure, Except.pure] at h
      cases h
      rw [List.mem_map] at hit
      obtain ⟨it1, hm1, hEq⟩ := hit
      have hmem := filterRealItems_mem raw filtered hfil it1 hm1
      refine ⟨it1, hmem.1, hEq.symm, ?_⟩
      cases hd : it1.data with
      | none => rw [hd] at hmem; simp at hmem
      | some d =>
        rw [← hEq]
        unfold Zotero.removeRelations
        rw [hd]
        rfl

/-- C9 witness: at a concrete environment, item and raw list (one note to be
filtered out, one book with a `relations` value), the formatters and the
attachment locator return the record unchanged and the returned record is
the input minus its `relations` field. -/
theorem record_immutable_after_fetch_witness :
    (Zotero.format_item_text wErrEnv wItem0).2 = wItem0
    ∧ (Zotero.format_item_html wErrEnv wItem0).2 = wItem0
    ∧ (Zotero.get_attachment_paths wErrEnv (some wItem0)).2 = some wItem0
    ∧ (∃ it0, it0 ∈ [{ key := some "N", data := some { wData with itemType := some "note" } },
          { key := some "K0", data := some { wData with relations := some "rel" } }]
        ∧ ({ key := some "K0", data := some wData } : Zotero.Item)
            = Zotero.removeRelations it0) := by
  have h := record_immutable_after_fetch wErrEnv wItem0
    [{ key := some "N", data := some { wData with itemType := some "note" } },
     { key := some "K0", data := some { wData with relations := some "rel" } }]
    [{ key := some "K0", data := some wData }]
  refine ⟨h.1, h.2.1, h.2.2.1, ?_⟩
  have hx := h.2.2.2 rfl { key := some "K0", data := some wData } (by decide)
  obtain ⟨it0, hmem, hEq, _⟩ := hx
  exact ⟨it0, hmem, hEq⟩

/-- C10: an empty record sequence makes `display_items` print
`No items found.` (and `display_books` print `No books found.`) and return
immediately: no document is generated and no output file is written, even
when a destination was given. -/
theorem empty_input_prints_message_only (env : Zotero.RunEnv) (fmt : OutputFormat)
    (f : Option String) (coll : Option String)
    (cenv : Calibre.RunEnv) (notice : Option String) :
    Zotero.display_items env [] fmt f coll
      = ([Emission.stdoutMsg "No items found."], ProcOutcome.ok)
    ∧ Calibre.display_books cenv [] fmt f notice
      = ([Emission.stdoutMsg "No books found."], ProcOutcome.ok) :=
  ⟨rfl, rfl⟩
